import Mathlib

/-!
# TEOmanager client scripts

A shallow embedding of `static/js/sidebar-persistence.js` and of the sidebar
part of `static/js/main.js`, followed by the user deletion dialog of
`static/js/admin-functions.js` and by `addToCartAjax` of
`static/js/cart-functions.js`.  The browser state the sidebar scripts read and
write (viewport width, `localStorage`, the five elements looked up by id,
pending timers) is an explicit `World` value that every function takes and
returns.  `classList` and `style` writes are also appended to `World.trace`, so
that the order in which a function performs them can be stated.  The admin and
cart scripts have page states of their own, `Admin.Page` and `Cart.Page`.
-/

namespace TEOmanager

/-! ## Browser state -/

/-- The part of a DOM element the scripts touch: the token set of `classList`
(in order) and the inline `style.transition` and `style.display`. -/
structure Element where
  classList : List String
  transition : String
  display : String
deriving DecidableEq, Repr

/-- The ids passed to `document.getElementById`. -/
inductive ElemId where
  | sidebar
  | navbar
  | mainContent
  | sidebarOverlay
  | sidebarToggle
deriving DecidableEq, Repr

/-- A DOM write, as recorded in the trace. -/
inductive Event where
  | classAdd (el : ElemId) (token : String)
  | classRemove (el : ElemId) (token : String)
  | classToggle (el : ElemId) (token : String)
  | styleTransition (el : ElemId) (value : String)
  | styleDisplay (el : ElemId) (value : String)
deriving DecidableEq, Repr

/-- The closures handed to `setTimeout`, defunctionalised.
`reenableTransitions els` is the arrow function of sidebar-persistence.js
lines 66-70 with its captured `elementsToDisable`; `restoreInlineTransitions`
is the one of main.js lines 50-54; `handleResize` is sidebar-persistence.js
line 99. -/
inductive TimerAction where
  | reenableTransitions (els : List ElemId)
  | restoreInlineTransitions
  | handleResize
deriving DecidableEq, Repr

/-- A pending timer: its handle, the time at which it is due and its callback. -/
structure Timer where
  id : Nat
  due : Nat
  action : TimerAction
deriving DecidableEq, Repr

/-- The content of `localStorage`: key/value pairs, looked up by first match. -/
structure Storage where
  items : List (String × String)
deriving DecidableEq, Repr

/-- The browser state. `sidebarPersistence` tells whether
`window.SidebarPersistence` is defined; `now` is the clock in milliseconds. -/
structure World where
  innerWidth : Nat
  now : Nat
  localStorage : Storage
  sidebar : Option Element
  navbar : Option Element
  mainContent : Option Element
  sidebarOverlay : Option Element
  sidebarToggle : Option Element
  sidebarPersistence : Bool
  timers : List Timer
  nextTimer : Nat
  trace : List Event
  console : List String
deriving DecidableEq, Repr

/-! ## Host operations -/

/-- `DOMTokenList.contains`. -/
def tokenContains (l : List String) (c : String) : Bool :=
  decide (c ∈ l)

/-- `DOMTokenList.add`: appends the token unless it is already there. -/
def tokenAdd (l : List String) (c : String) : List String :=
  if c ∈ l then l else l ++ [c]

/-- `DOMTokenList.remove`. -/
def tokenRemove (l : List String) (c : String) : List String :=
  l.filter (fun t => decide (t ≠ c))

/-- `DOMTokenList.toggle`: removes the token when present, adds it otherwise. -/
def tokenToggle (l : List String) (c : String) : List String :=
  if c ∈ l then tokenRemove l c else l ++ [c]

/-- `Storage.getItem`: `none` is JavaScript `null`. -/
def Storage.getItem (s : Storage) (key : String) : Option String :=
  (s.items.find? (fun kv => decide (kv.1 = key))).map Prod.snd

/-- Replaces the value of the first pair with the key, or appends a new pair. -/
def setPair : List (String × String) → String → String → List (String × String)
  | [], key, value => [(key, value)]
  | kv :: rest, key, value =>
    if kv.1 = key then (key, value) :: rest else kv :: setPair rest key value

/-- `Storage.setItem`. -/
def Storage.setItem (s : Storage) (key value : String) : Storage :=
  { items := setPair s.items key value }

/-- `Storage.removeItem`. -/
def Storage.removeItem (s : Storage) (key : String) : Storage :=
  { items := s.items.filter (fun kv => decide (kv.1 ≠ key)) }

/-- JavaScript `a || b` for `a` a string or `null`: `null` and the empty
string are falsy. -/
def orElse (a : Option String) (b : String) : String :=
  match a with
  | some s => if s = "" then b else s
  | none => b

/-- `document.getElementById`. -/
def World.getElementById (w : World) : ElemId → Option Element
  | .sidebar => w.sidebar
  | .navbar => w.navbar
  | .mainContent => w.mainContent
  | .sidebarOverlay => w.sidebarOverlay
  | .sidebarToggle => w.sidebarToggle

/-- Applies `f` to the element with the given id, when it exists. -/
def World.updateElement (w : World) (el : ElemId) (f : Element → Element) : World :=
  match el with
  | .sidebar => { w with sidebar := w.sidebar.map f }
  | .navbar => { w with navbar := w.navbar.map f }
  | .mainContent => { w with mainContent := w.mainContent.map f }
  | .sidebarOverlay => { w with sidebarOverlay := w.sidebarOverlay.map f }
  | .sidebarToggle => { w with sidebarToggle := w.sidebarToggle.map f }

/-- Appends a DOM write to the trace. -/
def World.record (w : World) (e : Event) : World :=
  { w with trace := w.trace ++ [e] }

/-- `el.classList.add(c)`. -/
def World.classListAdd (w : World) (el : ElemId) (c : String) : World :=
  (w.updateElement el (fun e => { e with classList := tokenAdd e.classList c })).record
    (.classAdd el c)

/-- `el.classList.remove(c)`. -/
def World.classListRemove (w : World) (el : ElemId) (c : String) : World :=
  (w.updateElement el (fun e => { e with classList := tokenRemove e.classList c })).record
    (.classRemove el c)

/-- `el.classList.toggle(c)`. -/
def World.classListToggle (w : World) (el : ElemId) (c : String) : World :=
  (w.updateElement el (fun e => { e with classList := tokenToggle e.classList c })).record
    (.classToggle el c)

/-- `el.classList.contains(c)`; `false` when the element does not exist. -/
def World.hasClass (w : World) (el : ElemId) (c : String) : Bool :=
  match w.getElementById el with
  | some e => tokenContains e.classList c
  | none => false

/-- `el.style.transition = v`. -/
def World.setTransition (w : World) (el : ElemId) (v : String) : World :=
  (w.updateElement el (fun e => { e with transition := v })).record (.styleTransition el v)

/-- `el.style.display = v`. -/
def World.setDisplay (w : World) (el : ElemId) (v : String) : World :=
  (w.updateElement el (fun e => { e with display := v })).record (.styleDisplay el v)

/-- `setTimeout(action, delay)`: the callback becomes due `delay` ms from now. -/
def World.setTimeout (w : World) (action : TimerAction) (delay : Nat) : World :=
  { w with
    timers := w.timers ++ [{ id := w.nextTimer, due := w.now + delay, action := action }]
    nextTimer := w.nextTimer + 1 }

/-- `console.log(msg)`. -/
def World.log (w : World) (msg : String) : World :=
  { w with console := w.console ++ [msg] }

/-- The overlay is shown: its inline `display` is `block`. -/
def overlayVisible (e : Element) : Bool :=
  decide (e.display = "block")

/-- The overlay is hidden: its inline `display` is `none`. -/
def overlayHidden (e : Element) : Bool :=
  decide (e.display = "none")

/-! ## sidebar-persistence.js -/

namespace SidebarPersistence

/-- Line 10. -/
def STORAGE_KEY : String := "teomanager_sidebar_state"

/-- Lines 13-15. -/
def isMobile (w : World) : Bool :=
  decide (w.innerWidth ≤ 1024)

/-- Lines 17-19. -/
def getSidebarState (w : World) : String :=
  orElse (w.localStorage.getItem STORAGE_KEY) ""

/-- Lines 21-27; `if (state)` holds for every non-empty string. -/
def setSidebarState (state : String) (w : World) : World :=
  if state ≠ "" then
    { w with localStorage := w.localStorage.setItem STORAGE_KEY state }
  else
    { w with localStorage := w.localStorage.removeItem STORAGE_KEY }

/-- Line 39: `[sidebar, navbar, mainContent].filter(el => el)`. -/
def elementsToDisable (w : World) : List ElemId :=
  [ElemId.sidebar, ElemId.navbar, ElemId.mainContent].filter
    (fun el => (w.getElementById el).isSome)

/-- Lines 30-73. -/
def applyInstantSidebarState (w : World) : World :=
  let savedState := getSidebarState w
  if w.sidebar.isNone then w else
  let els := elementsToDisable w
  let w1 := els.foldl (fun acc el => acc.classListAdd el "no-transition") w
  let w2 :=
    if isMobile w1 then
      if savedState = "mobile_open" then
        w1.classListAdd .sidebar "active"
      else
        w1.classListRemove .sidebar "active"
    else
      if savedState = "desktop_collapsed" then
        let a := w1.classListAdd .sidebar "collapsed"
        let b := if a.navbar.isSome then a.classListAdd .navbar "sidebar-collapsed" else a
        if b.mainContent.isSome then b.classListAdd .mainContent "sidebar-collapsed" else b
      else
        let a := w1.classListRemove .sidebar "collapsed"
        let b := if a.navbar.isSome then a.classListRemove .navbar "sidebar-collapsed" else a
        if b.mainContent.isSome then b.classListRemove .mainContent "sidebar-collapsed" else b
  let w3 := w2.setTimeout (.reenableTransitions els) 50
  w3.log ("✅ Sidebar state applied: " ++ (if savedState = "" then "default" else savedState))

end SidebarPersistence

/-- Runs the callback of a timer. -/
def runTimerAction (w : World) : TimerAction → World
  | .reenableTransitions els =>
    els.foldl (fun acc el => acc.classListRemove el "no-transition") w
  | .restoreInlineTransitions =>
    let a := w.setTransition .sidebar ""
    let b := if a.navbar.isSome then a.setTransition .navbar "" else a
    if b.mainContent.isSome then b.setTransition .mainContent "" else b
  | .handleResize => SidebarPersistence.applyInstantSidebarState w

/-! ## main.js, the `DOMContentLoaded` listener (lines 65-208) -/

namespace Main

/-- Lines 76-78. -/
def isMobile (w : World) : Bool :=
  decide (w.innerWidth ≤ 1024)

/-- Lines 80-84. -/
def getSidebarState (w : World) : String :=
  if w.sidebarPersistence then
    SidebarPersistence.getSidebarState w
  else
    orElse (w.localStorage.getItem "teomanager_sidebar_state") ""

/-- Lines 86-96. -/
def setSidebarState (state : String) (w : World) : World :=
  if w.sidebarPersistence then
    SidebarPersistence.setSidebarState state w
  else if state ≠ "" then
    { w with localStorage := w.localStorage.setItem "teomanager_sidebar_state" state }
  else
    { w with localStorage := w.localStorage.removeItem "teomanager_sidebar_state" }

/-- Lines 99-108. -/
def applyOverlayState (w : World) : World :=
  let savedState := getSidebarState w
  if isMobile w && decide (savedState = "mobile_open") then
    if w.sidebarOverlay.isSome then w.setDisplay .sidebarOverlay "block" else w
  else
    if w.sidebarOverlay.isSome then w.setDisplay .sidebarOverlay "none" else w

/-- Lines 111-133, the click listener of the toggle control. -/
def sidebarToggleClick (w : World) : World :=
  if isMobile w then
    let a := w.classListToggle .sidebar "active"
    let isActive := a.hasClass .sidebar "active"
    let b :=
      if a.sidebarOverlay.isSome then
        a.setDisplay .sidebarOverlay (if isActive then "block" else "none")
      else a
    setSidebarState (if isActive then "mobile_open" else "mobile_closed") b
  else
    let a := w.classListToggle .sidebar "collapsed"
    let b := if a.navbar.isSome then a.classListToggle .navbar "sidebar-collapsed" else a
    let c :=
      if b.mainContent.isSome then b.classListToggle .mainContent "sidebar-collapsed" else b
    let isCollapsed := c.hasClass .sidebar "collapsed"
    setSidebarState (if isCollapsed then "desktop_collapsed" else "") c

/-- What the `contains(e.target)` tests of the document click listener see. -/
structure ClickTarget where
  inSidebar : Bool
  inToggle : Bool
deriving DecidableEq, Repr

/-- Lines 145-154, the click listener of the document. -/
def documentClick (e : ClickTarget) (w : World) : World :=
  if isMobile w && w.hasClass .sidebar "active" && !e.inSidebar && !e.inToggle then
    let a := w.classListRemove .sidebar "active"
    let b := if a.sidebarOverlay.isSome then a.setDisplay .sidebarOverlay "none" else a
    setSidebarState "mobile_closed" b
  else w

/-- The listeners of lines 111-154 exist only under the guard of line 73,
`if (sidebar && sidebarToggle)`. -/
def listenersInstalled (w : World) : Bool :=
  w.sidebar.isSome && w.sidebarToggle.isSome

/-- A click on the toggle control: its own listener runs, then the event
bubbles to the document listener, with a target inside the toggle. -/
def clickOnToggle (inSidebar : Bool) (w : World) : World :=
  if listenersInstalled w then
    documentClick { inSidebar := inSidebar, inToggle := true } (sidebarToggleClick w)
  else w

end Main

end TEOmanager

/-! ## Concrete pages used to instantiate the theorems -/

namespace TEOmanager

namespace Fixture

/-- An element with no class and no inline style. -/
def plain : Element :=
  { classList := [], transition := "", display := "" }

/-- A first visit on a 1280 px wide window: nothing stored, every element
present and unstyled. -/
def freshDesktop : World :=
  { innerWidth := 1280, now := 0, localStorage := { items := [] },
    sidebar := some plain, navbar := some plain, mainContent := some plain,
    sidebarOverlay := some plain, sidebarToggle := some plain,
    sidebarPersistence := true, timers := [], nextTimer := 0, trace := [], console := [] }

/-- An 800 px wide window with `mobile_open` stored, the overlay hidden and
a navbar that still carries `sidebar-collapsed`. -/
def mobileOpenStored : World :=
  { freshDesktop with
    innerWidth := 800
    localStorage := { items := [("teomanager_sidebar_state", "mobile_open")] }
    navbar := some { plain with classList := ["sidebar-collapsed"] }
    sidebarOverlay := some { plain with display := "none" } }

/-- An 800 px wide window, nothing stored, the sidebar closed. -/
def mobileClosed : World :=
  { freshDesktop with innerWidth := 800 }

/-- A 1280 px wide window whose storage holds a label the scripts do not know. -/
def legacyStored : World :=
  { freshDesktop with
    localStorage := { items := [("teomanager_sidebar_state", "expanded")] } }

end Fixture

end TEOmanager

namespace TEOmanager

/-- The window is resized to the given width: `window.innerWidth` changes. -/
def World.resizeTo (w : World) (width : Nat) : World :=
  { w with innerWidth := width }

/-! ## main.js, the first script block (lines 4-63) -/

namespace MainInline

/-- Lines 7-9. -/
def isMobile (w : World) : Bool :=
  decide (w.innerWidth ≤ 1024)

/-- Lines 11-13. -/
def getSidebarState (w : World) : String :=
  orElse (w.localStorage.getItem "teomanager_sidebar_state") ""

/-- Lines 16-55. -/
def applyInstantSidebarState (w : World) : World :=
  let savedState := getSidebarState w
  if w.sidebar.isNone then w else
  let t1 := w.setTransition .sidebar "none"
  let t2 := if t1.navbar.isSome then t1.setTransition .navbar "none" else t1
  let w1 := if t2.mainContent.isSome then t2.setTransition .mainContent "none" else t2
  let w2 :=
    if isMobile w1 then
      if savedState = "mobile_open" then
        w1.classListAdd .sidebar "active"
      else
        w1.classListRemove .sidebar "active"
    else
      if savedState = "desktop_collapsed" then
        let a := w1.classListAdd .sidebar "collapsed"
        let b := if a.navbar.isSome then a.classListAdd .navbar "sidebar-collapsed" else a
        if b.mainContent.isSome then b.classListAdd .mainContent "sidebar-collapsed" else b
      else
        let a := w1.classListRemove .sidebar "collapsed"
        let b := if a.navbar.isSome then a.classListRemove .navbar "sidebar-collapsed" else a
        if b.mainContent.isSome then b.classListRemove .mainContent "sidebar-collapsed" else b
  w2.setTimeout .restoreInlineTransitions 50

end MainInline

/-! ## Clicks and their propagation -/

/-- A click event on its way from its target up to the document. -/
structure ClickEvent where
  propagationStopped : Bool
deriving DecidableEq, Repr

namespace Cart

/-- Lines 373-377 of cart-functions.js, the click listener of
`.cart-preview-dropdown`: `e.stopPropagation()`. -/
def cartPreviewClick (e : ClickEvent) : ClickEvent :=
  { e with propagationStopped := true }

end Cart

namespace Main

/-- Lines 137-141, the click listener of the overlay. -/
def overlayClick (w : World) : World :=
  let a := w.classListRemove .sidebar "active"
  let b := a.setDisplay .sidebarOverlay "none"
  setSidebarState "mobile_closed" b

/-- A click on the overlay: its own listener (installed under the guards of
lines 73 and 136) runs, then the event bubbles to the document listener. -/
def clickOnOverlay (e : ClickTarget) (w : World) : World :=
  if listenersInstalled w && w.sidebarOverlay.isSome then
    documentClick e (overlayClick w)
  else w

/-- A click on a target that lies outside the sidebar, the toggle control and
the overlay. When the target lies inside `.cart-preview-dropdown`, the click
listener that cart-functions.js puts on that element runs first, on the way
up; the document listener of lines 145-154 runs only if the event still
propagates when it reaches the document. -/
def clickOutside (inCartPreview : Bool) (w : World) : World :=
  let e : ClickEvent := { propagationStopped := false }
  let e1 := if inCartPreview then Cart.cartPreviewClick e else e
  if e1.propagationStopped then w
  else if listenersInstalled w then
    documentClick { inSidebar := false, inToggle := false } w
  else w

/-- Lines 157-190, the resize listener. -/
def resizeListener (w : World) : World :=
  if !isMobile w then
    let a := w.classListRemove .sidebar "active"
    let b := if a.sidebarOverlay.isSome then a.setDisplay .sidebarOverlay "none" else a
    let savedState := getSidebarState b
    if savedState = "desktop_collapsed" then
      let c := b.classListAdd .sidebar "collapsed"
      let d := if c.navbar.isSome then c.classListAdd .navbar "sidebar-collapsed" else c
      if d.mainContent.isSome then d.classListAdd .mainContent "sidebar-collapsed" else d
    else
      let c := b.classListRemove .sidebar "collapsed"
      let d := if c.navbar.isSome then c.classListRemove .navbar "sidebar-collapsed" else c
      if d.mainContent.isSome then d.classListRemove .mainContent "sidebar-collapsed" else d
  else
    let a := w.classListRemove .sidebar "collapsed"
    let b := if a.navbar.isSome then a.classListRemove .navbar "sidebar-collapsed" else a
    let c := if b.mainContent.isSome then b.classListRemove .mainContent "sidebar-collapsed" else b
    let savedState := getSidebarState c
    if savedState = "mobile_open" then
      let d := c.classListAdd .sidebar "active"
      if d.sidebarOverlay.isSome then d.setDisplay .sidebarOverlay "block" else d
    else
      let d := c.classListRemove .sidebar "active"
      if d.sidebarOverlay.isSome then d.setDisplay .sidebarOverlay "none" else d

end Main

namespace Fixture

/-- An 800 px wide window on which the desktop preference `desktop_collapsed`
is stored. -/
def mobileWithDesktopPref : World :=
  { freshDesktop with
    innerWidth := 800
    localStorage := { items := [("teomanager_sidebar_state", "desktop_collapsed")] } }

/-- A 1280 px wide window on which the mobile preference `mobile_open` is stored. -/
def desktopWithMobilePref : World :=
  { freshDesktop with
    localStorage := { items := [("teomanager_sidebar_state", "mobile_open")] } }

end Fixture

end TEOmanager

namespace TEOmanager

namespace Fixture

/-- An 800 px wide window with the sidebar open: `active` on, the overlay
shown, `mobile_open` stored. -/
def mobileOpen : World :=
  { freshDesktop with
    innerWidth := 800
    localStorage := { items := [("teomanager_sidebar_state", "mobile_open")] }
    sidebar := some { plain with classList := ["active"] }
    sidebarOverlay := some { plain with display := "block" } }

/-- A 1280 px wide window with the sidebar collapsed and `desktop_collapsed`
stored. -/
def desktopCollapsed : World :=
  { freshDesktop with
    localStorage := { items := [("teomanager_sidebar_state", "desktop_collapsed")] }
    sidebar := some { plain with classList := ["collapsed"] }
    navbar := some { plain with classList := ["sidebar-collapsed"] }
    mainContent := some { plain with classList := ["sidebar-collapsed"] } }

/-- A page without the sidebar element. -/
def noSidebar : World :=
  { freshDesktop with sidebar := none }

end Fixture

end TEOmanager

namespace TEOmanager

/-! ## `localStorage` that throws -/

/-- The exceptions `localStorage` raises. -/
inductive JsError where
  | securityError
  | quotaExceededError
deriving DecidableEq, Repr

/-- How `localStorage` misbehaves in a page view: when storage is `disabled`
every access to `window.localStorage` throws a `SecurityError`; when the quota
is exceeded `setItem` throws a `QuotaExceededError`. -/
structure StorageFaults where
  disabled : Bool
  quotaExceeded : Bool
deriving DecidableEq, Repr

/-- `localStorage.getItem(key)` under the given faults. -/
def Storage.getItemE (s : Storage) (f : StorageFaults) (key : String) :
    Except JsError (Option String) :=
  if f.disabled then .error .securityError else .ok (s.getItem key)

/-- `localStorage.setItem(key, value)` under the given faults. -/
def Storage.setItemE (s : Storage) (f : StorageFaults) (key value : String) :
    Except JsError Storage :=
  if f.disabled then .error .securityError
  else if f.quotaExceeded then .error .quotaExceededError
  else .ok (s.setItem key value)

/-- `localStorage.removeItem(key)` under the given faults. -/
def Storage.removeItemE (s : Storage) (f : StorageFaults) (key : String) :
    Except JsError Storage :=
  if f.disabled then .error .securityError else .ok (s.removeItem key)

/-- How a call ended: the page it left behind, and the exception that reached
the caller, if any. -/
structure Outcome where
  world : World
  thrown : Option JsError
deriving DecidableEq, Repr

namespace SidebarPersistence

/-- Lines 17-19 when `localStorage` may throw; the function has no `try`. -/
def getSidebarStateE (f : StorageFaults) (w : World) : Except JsError String :=
  match w.localStorage.getItemE f STORAGE_KEY with
  | .error e => .error e
  | .ok v => .ok (orElse v "")

/-- Lines 21-27 when `localStorage` may throw; the function has no `try`, so
an exception of `setItem` or `removeItem` reaches the caller. -/
def setSidebarStateE (f : StorageFaults) (state : String) (w : World) : Outcome :=
  if state ≠ "" then
    match w.localStorage.setItemE f STORAGE_KEY state with
    | .error e => { world := w, thrown := some e }
    | .ok s => { world := { w with localStorage := s }, thrown := none }
  else
    match w.localStorage.removeItemE f STORAGE_KEY with
    | .error e => { world := w, thrown := some e }
    | .ok s => { world := { w with localStorage := s }, thrown := none }

/-- Lines 30-73 when `localStorage` may throw. The only storage access is
`getSidebarState()` on line 34, before the test of line 36 and before any
write; when it throws the call ends there, and when it returns the call goes
on as `applyInstantSidebarState` does. -/
def applyInstantSidebarStateE (f : StorageFaults) (w : World) : Outcome :=
  match getSidebarStateE f w with
  | .error e => { world := w, thrown := some e }
  | .ok _ => { world := applyInstantSidebarState w, thrown := none }

end SidebarPersistence

namespace Main

/-- Lines 86-96 when `localStorage` may throw. -/
def setSidebarStateE (f : StorageFaults) (state : String) (w : World) : Outcome :=
  if w.sidebarPersistence then
    SidebarPersistence.setSidebarStateE f state w
  else if state ≠ "" then
    match w.localStorage.setItemE f "teomanager_sidebar_state" state with
    | .error e => { world := w, thrown := some e }
    | .ok s => { world := { w with localStorage := s }, thrown := none }
  else
    match w.localStorage.removeItemE f "teomanager_sidebar_state" with
    | .error e => { world := w, thrown := some e }
    | .ok s => { world := { w with localStorage := s }, thrown := none }

end Main

namespace Fixture

/-- A storage whose quota is exceeded: writes throw. -/
def quotaFull : StorageFaults :=
  { disabled := false, quotaExceeded := true }

/-- A disabled storage: every access throws. -/
def storageDisabled : StorageFaults :=
  { disabled := true, quotaExceeded := false }

/-- A storage that works. -/
def storageFine : StorageFaults :=
  { disabled := false, quotaExceeded := false }

end Fixture

end TEOmanager

namespace TEOmanager

/-! ## Timers and the event loop -/

/-- `clearTimeout(id)`: the timer with that handle is dropped; with
`undefined` (`none`) nothing happens. -/
def World.clearTimeout (w : World) (id : Option Nat) : World :=
  match id with
  | none => w
  | some i => { w with timers := w.timers.filter (fun t => decide (t.id ≠ i)) }

/-- A record of one timer callback run by the event loop: when it ran, which
callback it was, and `window.innerWidth` at that moment. -/
structure CallbackRun where
  time : Nat
  action : TimerAction
  innerWidth : Nat
deriving DecidableEq, Repr

/-- A page view of sidebar-persistence.js after `initializeSidebarPersistence`:
the browser state, the variable `resizeTimeout` of line 96, and the callbacks
the event loop has run so far. -/
structure Session where
  world : World
  resizeTimeout : Option Nat
  ran : List CallbackRun
deriving DecidableEq, Repr

namespace SidebarPersistence

/-- Lines 97-100, the resize listener. -/
def resizeListener (s : Session) : Session :=
  let w1 := s.world.clearTimeout s.resizeTimeout
  { s with
    world := w1.setTimeout .handleResize 100
    resizeTimeout := some w1.nextTimer }

end SidebarPersistence

/-- The event loop runs the callback of a due timer, unless the timer has been
cleared in the meantime; the timer is no longer pending while its callback
runs. -/
def Session.runTimer (s : Session) (t : Timer) : Session :=
  if t ∈ s.world.timers then
    let w := { s.world with timers := s.world.timers.filter (fun u => decide (u ≠ t)) }
    { s with
      world := runTimerAction w t.action
      ran := s.ran ++ [{ time := w.now, action := t.action, innerWidth := w.innerWidth }] }
  else s

/-- One millisecond passes: the clock advances and the timers that are due
run, in the order in which they were set. -/
def Session.tick (s : Session) : Session :=
  let w := { s.world with now := s.world.now + 1 }
  (w.timers.filter (fun t => decide (t.due ≤ w.now))).foldl Session.runTimer
    { s with world := w }

/-- The given number of milliseconds pass. -/
def Session.advance : Nat → Session → Session
  | 0, s => s
  | n + 1, s => Session.advance n (Session.tick s)

/-- A resize event: the window takes the new width, then the resize listener
of main.js (when installed) and the one of sidebar-persistence.js run. -/
def Session.resize (s : Session) (width : Nat) : Session :=
  let w := s.world.resizeTo width
  let w1 := if Main.listenersInstalled w then Main.resizeListener w else w
  SidebarPersistence.resizeListener { s with world := w1 }

/-- A series of resize events, each given as the time in milliseconds since
the event before it (for the first one, since the start) and the new width. -/
def Session.resizeBurst : List (Nat × Nat) → Session → Session
  | [], s => s
  | (gap, width) :: rest, s => Session.resizeBurst rest ((s.advance gap).resize width)

/-- The pending timers set by the resize listener. -/
def resizePending (w : World) : List Timer :=
  w.timers.filter (fun t => decide (t.action = .handleResize))

/-- The runs of `handleResize`, each of which is one call of `apply()`. -/
def resizeRuns (s : Session) : List CallbackRun :=
  s.ran.filter (fun r => decide (r.action = .handleResize))

/-- The page view right after initialisation: no resize timer has been set. -/
def Session.start (w : World) : Session :=
  { world := w, resizeTimeout := none, ran := [] }

end TEOmanager

namespace TEOmanager

/-! ## admin-functions.js: deleting a user (lines 323-487) -/

namespace Admin

/-- The characters `String.prototype.trim` strips: the white space and line
terminator code points of ECMAScript. -/
def isTrimmed (c : Char) : Bool :=
  c.toNat = 0x09 || c.toNat = 0x0A || c.toNat = 0x0B || c.toNat = 0x0C || c.toNat = 0x0D ||
  c.toNat = 0x20 || c.toNat = 0xA0 || c.toNat = 0x1680 ||
  (0x2000 ≤ c.toNat && c.toNat ≤ 0x200A) ||
  c.toNat = 0x2028 || c.toNat = 0x2029 || c.toNat = 0x202F || c.toNat = 0x205F ||
  c.toNat = 0x3000 || c.toNat = 0xFEFF

/-- `String.prototype.trim`, on the characters of the string. -/
def trimChars (l : List Char) : List Char :=
  ((l.dropWhile isTrimmed).reverse.dropWhile isTrimmed).reverse

/-- `s.trim()`. -/
def trim (s : String) : String :=
  String.mk (trimChars s.data)

/-- `s.split(sep)` for a one-character separator, on the characters of the
string: the pieces between the separators, empty pieces included. -/
def splitChars (sep : Char) : List Char → List (List Char)
  | [] => [[]]
  | c :: cs =>
    if c = sep then [] :: splitChars sep cs
    else
      match splitChars sep cs with
      | [] => [[c]]
      | piece :: pieces => (c :: piece) :: pieces

/-- The functions of the JavaScript library whose tables are not reproduced
here: `String.prototype.toUpperCase`, and `decodeURIComponent`, which answers
`none` where it throws a `URIError`. -/
structure Builtins where
  toUpperCase : String → String
  decodeURIComponent : String → Option String

/-- The exception of `decodeURIComponent`. -/
inductive Thrown where
  | uriError
deriving DecidableEq, Repr

/-- The `<input>` elements of a form: type, name and value. -/
structure FormInput where
  type : String
  name : String
  value : String
deriving DecidableEq, Repr

/-- A `<form>` element built by `executeUserDeletion`. -/
structure Form where
  method : String
  action : String
  inputs : List FormInput
deriving DecidableEq, Repr

/-- The elements the scripts append to `document.body`. -/
inductive Node where
  | form (f : Form)
  | notification (type message : String)
deriving DecidableEq, Repr

/-- The element `#deleteConfirmInput`: its value, its classes, whether it has
the focus and whether `validateDeleteInput` listens to its `input` events. -/
structure ConfirmInput where
  value : String
  classList : List String
  focused : Bool
  inputListener : Bool
deriving DecidableEq, Repr

/-- The element `#deleteModalConfirmBtn`: `onclick` holds the `userId` captured
by the handler that `deleteUser` installs. -/
structure ConfirmButton where
  disabled : Bool
  onclick : Option String
deriving DecidableEq, Repr

/-- The state of an admin page. `csrfField` is the value of the
`csrfmiddlewaretoken` field rendered in the page, `modal` the class list of
`#deleteUserModal`, `timers` the delays of the pending timers. -/
structure Page where
  csrfField : Option String
  cookie : String
  modal : Option (List String)
  usernameSpan : Option String
  confirmInput : Option ConfirmInput
  confirmBtn : Option ConfirmButton
  bodyOverflow : String
  body : List Node
  notificationStyles : Bool
  submitted : List Form
  escapeListener : Bool
  currentDeleteUserId : Option String
  timers : List Nat
  console : List String
deriving DecidableEq, Repr

/-- How a call ended: the page it left behind and the exception that reached
the caller, if any. -/
structure Outcome where
  page : Page
  thrown : Option Thrown
deriving DecidableEq, Repr

/-- The value of the first `csrfmiddlewaretoken` input among the given nodes. -/
def firstCsrfInput : List Node → Option String
  | [] => none
  | .form f :: rest =>
    match f.inputs.find? (fun i => decide (i.name = "csrfmiddlewaretoken")) with
    | some i => some i.value
    | none => firstCsrfInput rest
  | .notification _ _ :: rest => firstCsrfInput rest

/-- `document.querySelector('[name=csrfmiddlewaretoken]')`, as the value of
the element found: the field of the page comes first in document order, the
forms appended to the body after it. -/
def Page.queryCsrfField (p : Page) : Option String :=
  match p.csrfField with
  | some v => some v
  | none => firstCsrfInput p.body

/-- Lines 474-487, the loop over the `;`-separated entries. -/
def getCookieLoop (b : Builtins) (name : String) :
    List (List Char) → Except Thrown (Option String)
  | [] => .ok none
  | entry :: rest =>
    let cookie := trimChars entry
    if cookie.take (name.length + 1) = (name ++ "=").data then
      match b.decodeURIComponent (String.mk (cookie.drop (name.length + 1))) with
      | some v => .ok (some v)
      | none => .error .uriError
    else getCookieLoop b name rest

/-- Lines 474-487; `none` is `null`. -/
def getCookie (b : Builtins) (p : Page) (name : String) : Except Thrown (Option String) :=
  if p.cookie ≠ "" then getCookieLoop b name (splitChars ';' p.cookie.data)
  else .ok none

/-- Lines 181-277, as far as the page state records it: the notification is
appended to the body, the style sheet is added once, a timer of 5000 ms is
set. -/
def showNotification (message type : String) (p : Page) : Page :=
  { p with
    notificationStyles := true
    body := p.body ++ [.notification type message]
    timers := p.timers ++ [5000] }

/-- Lines 406-425. -/
def closeDeleteModal (p : Page) : Page :=
  let a :=
    match p.modal with
    | some cls => { p with modal := some (tokenRemove cls "show"), bodyOverflow := "" }
    | none => p
  let b :=
    match a.confirmInput with
    | some i =>
      let cleared : ConfirmInput :=
        { i with
          inputListener := false
          value := ""
          classList := tokenRemove (tokenRemove i.classList "error") "success" }
      { a with confirmInput := some cleared }
    | none => a
  { b with escapeListener := false, currentDeleteUserId := none }

/-- Lines 428-432. -/
def handleModalEscape (key : String) (p : Page) : Page :=
  if key = "Escape" then closeDeleteModal p else p

/-- Lines 326-379. -/
def deleteUser (userId username : String) (p : Page) : Page :=
  let a := { p with
    console := p.console ++ ["deleteUser llamado con: " ++ userId ++ " " ++ username]
    currentDeleteUserId := some userId }
  match a.modal with
  | none => { a with console := a.console ++ ["Modal de eliminación no encontrado"] }
  | some cls =>
    let b := if a.usernameSpan.isSome then { a with usernameSpan := some username } else a
    let c :=
      match b.confirmInput with
      | some i =>
        let cleared : ConfirmInput :=
          { i with
            value := ""
            classList := tokenRemove (tokenRemove i.classList "error") "success"
            focused := true }
        { b with confirmInput := some cleared }
      | none => b
    let d :=
      match c.confirmBtn with
      | some btn => { c with confirmBtn := some { btn with disabled := true } }
      | none => c
    let e := { d with modal := some (tokenAdd cls "show"), bodyOverflow := "hidden" }
    let f :=
      match e.confirmInput with
      | some i => { e with confirmInput := some { i with inputListener := true } }
      | none => e
    let g :=
      match f.confirmBtn with
      | some btn => { f with confirmBtn := some { btn with onclick := some userId } }
      | none => f
    { g with escapeListener := true }

/-- Lines 382-403. -/
def validateDeleteInput (b : Builtins) (p : Page) : Page :=
  match p.confirmInput, p.confirmBtn with
  | some input, some btn =>
    let value := trim (b.toUpperCase input.value)
    let cleared := tokenRemove (tokenRemove input.classList "error") "success"
    if value = "" then
      { p with
        confirmInput := some { input with classList := cleared }
        confirmBtn := some { btn with disabled := true } }
    else if value = "ELIMINAR" then
      { p with
        confirmInput := some { input with classList := tokenAdd cleared "success" }
        confirmBtn := some { btn with disabled := false } }
    else
      { p with
        confirmInput := some { input with classList := tokenAdd cleared "error" }
        confirmBtn := some { btn with disabled := true } }
  | _, _ => p

/-- Lines 435-471. The form is created first but stays detached until line
468; `getCookie` is the only call that can throw. -/
def executeUserDeletion (b : Builtins) (userId : String) (p : Page) : Outcome :=
  let form : Form :=
    { method := "POST", action := "/dashboard/users/" ++ userId ++ "/delete/", inputs := [] }
  let send (token : String) : Outcome :=
    let filled : Form :=
      { form with inputs := form.inputs ++
          [{ type := "hidden", name := "csrfmiddlewaretoken", value := token }] }
    let closed := closeDeleteModal p
    { page :=
        { closed with
          body := closed.body ++ [.form filled]
          console := closed.console ++ ["Enviando formulario de eliminación..."]
          submitted := closed.submitted ++ [filled] }
      thrown := none }
  match p.queryCsrfField with
  | some v => send v
  | none =>
    match getCookie b p "csrftoken" with
    | .error e => { page := p, thrown := some e }
    | .ok (some c) =>
      if c ≠ "" then send c
      else
        { page := showNotification
            "Error: No se pudo obtener el token CSRF. Por favor, recarga la página." "error"
            (closeDeleteModal p)
          thrown := none }
    | .ok none =>
      { page := showNotification
          "Error: No se pudo obtener el token CSRF. Por favor, recarga la página." "error"
          (closeDeleteModal p)
        thrown := none }

/-- Lines 370-374, the `onclick` handler that `deleteUser` installs, with the
`userId` it captured. -/
def confirmOnclick (b : Builtins) (userId : String) (p : Page) : Outcome :=
  match p.confirmInput with
  | some input =>
    if b.toUpperCase input.value = "ELIMINAR" then executeUserDeletion b userId p
    else { page := p, thrown := none }
  | none => { page := p, thrown := none }

/-- A click on the confirm button: a disabled button receives no click; an
enabled one runs its `onclick` handler, if it has one. -/
def clickConfirm (b : Builtins) (p : Page) : Outcome :=
  match p.confirmBtn with
  | some btn =>
    if btn.disabled then { page := p, thrown := none }
    else
      match btn.onclick with
      | some userId => confirmOnclick b userId p
      | none => { page := p, thrown := none }
  | none => { page := p, thrown := none }

/-- The user edits the confirmation input: its value changes and the `input`
event runs `validateDeleteInput` when it is registered. -/
def typeText (b : Builtins) (text : String) (p : Page) : Page :=
  match p.confirmInput with
  | some input =>
    let a := { p with confirmInput := some { input with value := text } }
    if input.inputListener then validateDeleteInput b a else a
  | none => p

end Admin

namespace Fixture

/-- Upper case of an ASCII letter; other characters stay as they are. -/
def upperChar : Char → Char
  | 'a' => 'A' | 'b' => 'B' | 'c' => 'C' | 'd' => 'D' | 'e' => 'E' | 'f' => 'F'
  | 'g' => 'G' | 'h' => 'H' | 'i' => 'I' | 'j' => 'J' | 'k' => 'K' | 'l' => 'L'
  | 'm' => 'M' | 'n' => 'N' | 'o' => 'O' | 'p' => 'P' | 'q' => 'Q' | 'r' => 'R'
  | 's' => 'S' | 't' => 'T' | 'u' => 'U' | 'v' => 'V' | 'w' => 'W' | 'x' => 'X'
  | 'y' => 'Y' | 'z' => 'Z' | c => c

/-- The library functions on plain ASCII text without `%`: upper-casing letter
by letter, decoding as the identity. -/
def asciiBuiltins : Admin.Builtins :=
  { toUpperCase := fun s => String.mk (s.data.map upperChar)
    decodeURIComponent := fun s => some s }

/-- An admin page with the delete modal, no CSRF field and a `csrftoken`
cookie among others. -/
def adminPage : Admin.Page :=
  { csrfField := none
    cookie := "sessionid=s1; xcsrftoken=wrong; csrftoken=tok123"
    modal := some []
    usernameSpan := some ""
    confirmInput := some { value := "", classList := [], focused := false,
                           inputListener := false }
    confirmBtn := some { disabled := true, onclick := none }
    bodyOverflow := ""
    body := []
    notificationStyles := false
    submitted := []
    escapeListener := false
    currentDeleteUserId := none
    timers := []
    console := [] }

/-- The same admin page with a `csrfmiddlewaretoken` field rendered in it. -/
def adminPageWithField : Admin.Page :=
  { adminPage with csrfField := some "fieldTok" }

/-- Library functions whose `decodeURIComponent` throws on the text `%`, a
percent sign without two hexadecimal digits, and is the identity on any other
text. -/
def strictBuiltins : Admin.Builtins :=
  { asciiBuiltins with
    decodeURIComponent := fun s => if s = "%" then none else some s }

/-- An admin page without CSRF field whose `csrftoken` cookie is not a valid
percent-encoding. -/
def adminPageBadCookie : Admin.Page :=
  { adminPage with cookie := "csrftoken=%" }

end Fixture

end TEOmanager

namespace TEOmanager

/-! ## cart-functions.js: `addToCartAjax` (lines 6-7 and 216-286) -/

namespace Cart

/-- A request handed to `fetch`. -/
structure Request where
  url : String
  method : String
  csrfToken : String
deriving DecidableEq, Repr

/-- The JSON object of a response, as far as `addToCartAjax` reads it. -/
structure CartData where
  success : Bool
  cartCount : String
  cartTotal : String
  message : String
deriving DecidableEq, Repr

/-- The calls that `addToCartAjax` makes into the user interface. None of the
functions called reads or writes `cartUpdateInProgress`. -/
inductive UiCall where
  | updateCartDisplay (cartCount cartTotal : String)
  | previewTimer
  | showCartNotification (message type : String)
  | flashButton (productId : String)
deriving DecidableEq, Repr

/-- The state of a shop page: the module variable of line 7, the requests
sent, the user-interface calls made, the products that have an add button, the
address assigned to `window.location.href`, and the console. -/
structure Page where
  cartUpdateInProgress : Bool
  requests : List Request
  ui : List UiCall
  buttons : List String
  location : Option String
  console : List String
deriving DecidableEq, Repr

/-- Where a call of the `async` function is suspended: at the `await` of line
224 or at the `await` of line 239. -/
inductive Suspended where
  | atFetch (productId : String)
  | atJson (productId : String)
deriving DecidableEq, Repr

/-- How the promise of `fetch` settles: rejected, or fulfilled with a
response. -/
inductive FetchSettled where
  | rejected
  | response (ok : Bool) (status : Nat)
deriving DecidableEq, Repr

/-- How the promise of `response.json()` settles. -/
inductive JsonSettled where
  | rejected
  | data (d : CartData)
deriving DecidableEq, Repr

/-- Lines 216-232: the call up to its first `await`. -/
def addToCartAjax (productId csrfToken : String) (p : Page) : Page × Option Suspended :=
  if p.cartUpdateInProgress then (p, none)
  else
    ({ p with
        cartUpdateInProgress := true
        console := p.console ++ ["Adding product " ++ productId ++ " to cart via AJAX..."]
        requests := p.requests ++
          [{ url := "/cart/add/" ++ productId ++ "/", method := "POST",
             csrfToken := csrfToken }] },
      some (.atFetch productId))

/-- Lines 276-285: the `catch` block followed by the `finally` block. -/
def catchThenFinally (productId : String) (p : Page) : Page :=
  { p with
    console := p.console ++ ["AJAX Error adding to cart:", "Falling back to traditional method"]
    ui := p.ui ++ [.showCartNotification "Error al agregar producto al carrito" "error"]
    location := some ("/cart/add/" ++ productId ++ "/")
    cartUpdateInProgress := false }

/-- Lines 224-239: the call from the settling of `fetch` up to its second
`await`, or to its end when `fetch` is rejected or the status is not OK. -/
def resumeAfterFetch (productId : String) (r : FetchSettled) (p : Page) :
    Page × Option Suspended :=
  match r with
  | .rejected => (catchThenFinally productId p, none)
  | .response ok status =>
    let a := { p with console := p.console ++ ["Response status: " ++ toString status] }
    if !ok then (catchThenFinally productId a, none)
    else (a, some (.atJson productId))

/-- Lines 239-285: the call from the settling of `response.json()` to its
end. -/
def resumeAfterJson (productId : String) (j : JsonSettled) (p : Page) : Page :=
  match j with
  | .rejected => catchThenFinally productId p
  | .data d =>
    let a : Page := { p with console := p.console ++ ["Response data:"] }
    let b : Page :=
      if d.success then
        let c : Page := { a with
          console := a.console ++ ["✅ AJAX Success! Cart data received:",
            "🔄 Calling updateCartDisplay..."]
          ui := a.ui ++ [UiCall.updateCartDisplay d.cartCount d.cartTotal, UiCall.previewTimer,
            UiCall.showCartNotification d.message "success"] }
        let e : Page := if productId ∈ c.buttons then { c with ui := c.ui ++ [UiCall.flashButton productId] }
          else c
        { e with console := e.console ++ ["✅ Product added successfully via AJAX"] }
      else
        { a with
          console := a.console ++ ["❌ Server responded with error:"]
          ui := a.ui ++ [UiCall.showCartNotification d.message "error"] }
    { b with cartUpdateInProgress := false }

end Cart

namespace Fixture

/-- A shop page on which a call of `addToCartAjax` is in progress. -/
def cartBusy : Cart.Page :=
  { cartUpdateInProgress := true
    requests := [{ url := "/cart/add/5/", method := "POST", csrfToken := "tok123" }]
    ui := []
    buttons := ["5", "9"]
    location := none
    console := ["Adding product 5 to cart via AJAX..."] }

/-- A shop page on which no call is in progress. -/
def cartIdle : Cart.Page :=
  { cartUpdateInProgress := false, requests := [], ui := [], buttons := ["5", "9"],
    location := none, console := [] }

end Fixture

end TEOmanager

/-! ## Token lists and storage -/

namespace TEOmanager

theorem mem_tokenAdd (l : List String) (c x : String) :
    x ∈ tokenAdd l c ↔ x ∈ l ∨ x = c := by
  unfold tokenAdd
  split_ifs with h
  · constructor
    · exact Or.inl
    · rintro (h1 | h1)
      · exact h1
      · exact h1 ▸ h
  · simp

theorem mem_tokenRemove (l : List String) (c x : String) :
    x ∈ tokenRemove l c ↔ x ∈ l ∧ x ≠ c := by
  simp [tokenRemove]

theorem mem_tokenToggle_self (l : List String) (c : String) :
    c ∈ tokenToggle l c ↔ c ∉ l := by
  unfold tokenToggle
  split_ifs with h
  · simp [mem_tokenRemove, h]
  · simp [h]

theorem mem_tokenToggle_of_ne (l : List String) (c x : String) (hx : x ≠ c) :
    x ∈ tokenToggle l c ↔ x ∈ l := by
  unfold tokenToggle
  split_ifs with h
  · simp [mem_tokenRemove, hx]
  · simp [hx]

theorem tokenAdd_of_mem (l : List String) (c : String) (h : c ∈ l) : tokenAdd l c = l := by
  simp [tokenAdd, h]

theorem tokenRemove_of_not_mem (l : List String) (c : String) (h : c ∉ l) :
    tokenRemove l c = l := by
  unfold tokenRemove
  rw [List.filter_eq_self]
  intro a ha
  have : a ≠ c := fun hac => h (hac ▸ ha)
  simpa using this

theorem find_setPair (items : List (String × String)) (key value : String) :
    (setPair items key value).find? (fun kv => decide (kv.1 = key)) = some (key, value) := by
  induction items with
  | nil => simp [setPair]
  | cons kv rest ih =>
    unfold setPair
    split_ifs with h
    · simp
    · simp [List.find?_cons, h, ih]

theorem getItem_setItem (s : Storage) (key value : String) :
    (s.setItem key value).getItem key = some value := by
  simp [Storage.getItem, Storage.setItem, find_setPair]

theorem getItem_removeItem (s : Storage) (key : String) :
    (s.removeItem key).getItem key = none := by
  simp [Storage.getItem, Storage.removeItem, List.find?_eq_none]

theorem removeItem_absent (s : Storage) (key : String) :
    ∀ kv ∈ (s.removeItem key).items, kv.1 ≠ key := by
  intro kv hkv
  simp [Storage.removeItem] at hkv
  exact hkv.2

end TEOmanager

/-! ## What `applyInstantSidebarState` does to each element -/

namespace TEOmanager

open SidebarPersistence

theorem getSidebarState_eq_iff (w : World) (s : String) (hs : s ≠ "") :
    getSidebarState w = s ↔ w.localStorage.getItem STORAGE_KEY = some s := by
  unfold getSidebarState orElse
  cases h : w.localStorage.getItem STORAGE_KEY with
  | none => simp [Ne.symm hs]
  | some v =>
    by_cases hv : v = ""
    · subst hv
      simp [Ne.symm hs]
    · simp [hv]

theorem apply_absent (w : World) (hs : w.sidebar = none) :
    applyInstantSidebarState w = w := by
  simp [applyInstantSidebarState, hs]

theorem apply_sidebar (w : World) (s : Element) (hs : w.sidebar = some s) :
    (applyInstantSidebarState w).sidebar = some { s with classList := (
      if isMobile w then
        if getSidebarState w = "mobile_open" then
          tokenAdd (tokenAdd s.classList "no-transition") "active"
        else tokenRemove (tokenAdd s.classList "no-transition") "active"
      else
        if getSidebarState w = "desktop_collapsed" then
          tokenAdd (tokenAdd s.classList "no-transition") "collapsed"
        else tokenRemove (tokenAdd s.classList "no-transition") "collapsed") } := by
  obtain ⟨iw, now, ls, sb, nb, mc, so, st, sp, tm, nt, tr, co⟩ := w
  simp only at hs
  subst hs
  cases nb <;> cases mc <;>
    simp [applyInstantSidebarState, elementsToDisable, World.getElementById, isMobile,
      World.classListAdd, World.classListRemove, World.updateElement, World.record,
      World.setTimeout, World.log] <;>
    split_ifs <;> rfl

theorem apply_navbar (w : World) (hs : w.sidebar.isSome) :
    (applyInstantSidebarState w).navbar = w.navbar.map (fun n => { n with classList := (
      if isMobile w then tokenAdd n.classList "no-transition"
      else
        if getSidebarState w = "desktop_collapsed" then
          tokenAdd (tokenAdd n.classList "no-transition") "sidebar-collapsed"
        else tokenRemove (tokenAdd n.classList "no-transition") "sidebar-collapsed") }) := by
  obtain ⟨iw, now, ls, sb, nb, mc, so, st, sp, tm, nt, tr, co⟩ := w
  cases sb with
  | none => simp at hs
  | some s =>
    cases nb <;> cases mc <;>
      simp [applyInstantSidebarState, elementsToDisable, World.getElementById, isMobile,
        World.classListAdd, World.classListRemove, World.updateElement, World.record,
        World.setTimeout, World.log] <;>
      split_ifs <;> rfl

theorem apply_mainContent (w : World) (hs : w.sidebar.isSome) :
    (applyInstantSidebarState w).mainContent = w.mainContent.map (fun n =>
      { n with classList := (
        if isMobile w then tokenAdd n.classList "no-transition"
        else
          if getSidebarState w = "desktop_collapsed" then
            tokenAdd (tokenAdd n.classList "no-transition") "sidebar-collapsed"
          else tokenRemove (tokenAdd n.classList "no-transition") "sidebar-collapsed") }) := by
  obtain ⟨iw, now, ls, sb, nb, mc, so, st, sp, tm, nt, tr, co⟩ := w
  cases sb with
  | none => simp at hs
  | some s =>
    cases nb <;> cases mc <;>
      simp [applyInstantSidebarState, elementsToDisable, World.getElementById, isMobile,
        World.classListAdd, World.classListRemove, World.updateElement, World.record,
        World.setTimeout, World.log] <;>
      split_ifs <;> rfl

theorem apply_frame (w : World) :
    (applyInstantSidebarState w).innerWidth = w.innerWidth ∧
    (applyInstantSidebarState w).now = w.now ∧
    (applyInstantSidebarState w).localStorage = w.localStorage ∧
    (applyInstantSidebarState w).sidebarOverlay = w.sidebarOverlay ∧
    (applyInstantSidebarState w).sidebarToggle = w.sidebarToggle ∧
    (applyInstantSidebarState w).sidebarPersistence = w.sidebarPersistence := by
  obtain ⟨iw, now, ls, sb, nb, mc, so, st, sp, tm, nt, tr, co⟩ := w
  cases sb with
  | none => simp [applyInstantSidebarState]
  | some s =>
    cases nb <;> cases mc <;>
      simp [applyInstantSidebarState, elementsToDisable, World.getElementById, isMobile,
        World.classListAdd, World.classListRemove, World.updateElement, World.record,
        World.setTimeout, World.log] <;>
      split_ifs <;> simp

theorem isMobile_iff (w : World) : isMobile w = true ↔ w.innerWidth ≤ 1024 := by
  simp [isMobile]

/-- Claim C1. On a Desktop viewport (width above 1024) with the sidebar present,
after `apply()` the sidebar carries `collapsed`, and the navbar and the main
content (each when present) carry `sidebar-collapsed`, exactly when the stored
value is `desktop_collapsed`; with any other stored value, or none, all three
classes are off. -/
theorem apply_desktop_classes (w : World) (hs : w.sidebar.isSome = true)
    (hd : 1024 < w.innerWidth) :
    ((applyInstantSidebarState w).hasClass .sidebar "collapsed" = true ↔
      w.localStorage.getItem STORAGE_KEY = some "desktop_collapsed") ∧
    (w.navbar.isSome = true →
      ((applyInstantSidebarState w).hasClass .navbar "sidebar-collapsed" = true ↔
        w.localStorage.getItem STORAGE_KEY = some "desktop_collapsed")) ∧
    (w.mainContent.isSome = true →
      ((applyInstantSidebarState w).hasClass .mainContent "sidebar-collapsed" = true ↔
        w.localStorage.getItem STORAGE_KEY = some "desktop_collapsed")) := by
  have hm : isMobile w = false := by simp [isMobile, hd]
  have hget := getSidebarState_eq_iff w "desktop_collapsed" (by decide)
  refine ⟨?_, ?_, ?_⟩
  · obtain ⟨s, hsb⟩ := Option.isSome_iff_exists.mp hs
    rw [← hget]
    simp only [World.hasClass, World.getElementById, apply_sidebar w s hsb, hm, tokenContains]
    by_cases hg : getSidebarState w = "desktop_collapsed"
    · simp [hg, mem_tokenAdd]
    · simp [hg, mem_tokenRemove]
  · intro hn
    obtain ⟨n, hnb⟩ := Option.isSome_iff_exists.mp hn
    rw [← hget]
    simp only [World.hasClass, World.getElementById, apply_navbar w hs, hnb, hm, tokenContains,
      Option.map_some']
    by_cases hg : getSidebarState w = "desktop_collapsed"
    · simp [hg, mem_tokenAdd]
    · simp [hg, mem_tokenRemove]
  · intro hn
    obtain ⟨n, hnb⟩ := Option.isSome_iff_exists.mp hn
    rw [← hget]
    simp only [World.hasClass, World.getElementById, apply_mainContent w hs, hnb, hm,
      tokenContains, Option.map_some']
    by_cases hg : getSidebarState w = "desktop_collapsed"
    · simp [hg, mem_tokenAdd]
    · simp [hg, mem_tokenRemove]

end TEOmanager

namespace TEOmanager

open SidebarPersistence

/-- Witness of C1: a fresh load at width 1280 with nothing stored. -/
theorem apply_desktop_classes_witness :
    Fixture.freshDesktop.sidebar.isSome = true ∧ 1024 < Fixture.freshDesktop.innerWidth ∧
    (((applyInstantSidebarState Fixture.freshDesktop).hasClass .sidebar "collapsed" = true ↔
      Fixture.freshDesktop.localStorage.getItem STORAGE_KEY = some "desktop_collapsed") ∧
    (Fixture.freshDesktop.navbar.isSome = true →
      ((applyInstantSidebarState Fixture.freshDesktop).hasClass .navbar "sidebar-collapsed"
          = true ↔
        Fixture.freshDesktop.localStorage.getItem STORAGE_KEY = some "desktop_collapsed")) ∧
    (Fixture.freshDesktop.mainContent.isSome = true →
      ((applyInstantSidebarState Fixture.freshDesktop).hasClass .mainContent
          "sidebar-collapsed" = true ↔
        Fixture.freshDesktop.localStorage.getItem STORAGE_KEY = some "desktop_collapsed"))) :=
  ⟨rfl, by decide, apply_desktop_classes Fixture.freshDesktop rfl (by decide)⟩

/-- Claim C2. On a Mobile viewport (width at most 1024) with the sidebar present,
after `apply()` the sidebar carries `active` exactly when the stored value is
`mobile_open`, and the navbar and the main content carry `sidebar-collapsed`
exactly when they did before the call. -/
theorem apply_mobile_classes (w : World) (hs : w.sidebar.isSome = true)
    (hm : w.innerWidth ≤ 1024) :
    ((applyInstantSidebarState w).hasClass .sidebar "active" = true ↔
      w.localStorage.getItem STORAGE_KEY = some "mobile_open") ∧
    (applyInstantSidebarState w).hasClass .navbar "sidebar-collapsed" =
      w.hasClass .navbar "sidebar-collapsed" ∧
    (applyInstantSidebarState w).hasClass .mainContent "sidebar-collapsed" =
      w.hasClass .mainContent "sidebar-collapsed" := by
  have hmob : isMobile w = true := by simp [isMobile, hm]
  have hget := getSidebarState_eq_iff w "mobile_open" (by decide)
  refine ⟨?_, ?_, ?_⟩
  · obtain ⟨s, hsb⟩ := Option.isSome_iff_exists.mp hs
    rw [← hget]
    simp only [World.hasClass, World.getElementById, apply_sidebar w s hsb, hmob, tokenContains]
    by_cases hg : getSidebarState w = "mobile_open"
    · simp [hg, mem_tokenAdd]
    · simp [hg, mem_tokenRemove]
  · simp only [World.hasClass, World.getElementById, apply_navbar w hs, hmob, tokenContains]
    cases w.navbar with
    | none => rfl
    | some n => simp [mem_tokenAdd]
  · simp only [World.hasClass, World.getElementById, apply_mainContent w hs, hmob,
      tokenContains]
    cases w.mainContent with
    | none => rfl
    | some n => simp [mem_tokenAdd]

/-- Witness of C2: width 800, `mobile_open` stored, a navbar carrying
`sidebar-collapsed`. -/
theorem apply_mobile_classes_witness :
    Fixture.mobileOpenStored.sidebar.isSome = true ∧
    Fixture.mobileOpenStored.innerWidth ≤ 1024 ∧
    (((applyInstantSidebarState Fixture.mobileOpenStored).hasClass .sidebar "active" = true ↔
      Fixture.mobileOpenStored.localStorage.getItem STORAGE_KEY = some "mobile_open") ∧
    (applyInstantSidebarState Fixture.mobileOpenStored).hasClass .navbar "sidebar-collapsed" =
      Fixture.mobileOpenStored.hasClass .navbar "sidebar-collapsed" ∧
    (applyInstantSidebarState Fixture.mobileOpenStored).hasClass .mainContent
        "sidebar-collapsed" =
      Fixture.mobileOpenStored.hasClass .mainContent "sidebar-collapsed") :=
  ⟨rfl, by decide, apply_mobile_classes Fixture.mobileOpenStored rfl (by decide)⟩

end TEOmanager

/-! ## The overlay -/

namespace TEOmanager

open SidebarPersistence

theorem main_getSidebarState_eq (w : World) :
    Main.getSidebarState w = getSidebarState w := by
  unfold Main.getSidebarState
  split_ifs <;> rfl

theorem getSidebarState_apply (w : World) :
    getSidebarState (applyInstantSidebarState w) = getSidebarState w := by
  unfold getSidebarState
  rw [(apply_frame w).2.2.1]

theorem applyOverlayState_overlay (w : World) :
    (Main.applyOverlayState w).sidebarOverlay = w.sidebarOverlay.map (fun o =>
      { o with display := (
        if w.innerWidth ≤ 1024 ∧ getSidebarState w = "mobile_open" then "block"
        else "none") }) := by
  obtain ⟨iw, now, ls, sb, nb, mc, so, st, sp, tm, nt, tr, co⟩ := w
  cases so <;>
    simp only [Main.applyOverlayState, main_getSidebarState_eq, Main.isMobile] <;>
    split_ifs <;>
    simp_all [World.setDisplay, World.updateElement, World.record]

/-- Counterexample to C3: on an 800 px wide window with `mobile_open` stored
and the overlay hidden, `apply()` leaves the overlay hidden, where the claim
wants it visible. -/
theorem apply_overlay_counterexample :
    Fixture.mobileOpenStored.innerWidth ≤ 1024 ∧
    Fixture.mobileOpenStored.localStorage.getItem STORAGE_KEY = some "mobile_open" ∧
    (applyInstantSidebarState Fixture.mobileOpenStored).sidebarOverlay.map overlayVisible
      = some false ∧
    (applyInstantSidebarState Fixture.mobileOpenStored).sidebarOverlay.map overlayHidden
      = some true := by
  refine ⟨by decide, by decide, ?_, ?_⟩ <;>
    rw [(apply_frame Fixture.mobileOpenStored).2.2.2.1] <;> decide

/-- Claim C3, amended. `apply()` leaves the overlay element exactly as it was.
The overlay is set by `applyOverlayState` of main.js: run after `apply()`, it
makes the overlay (when present) visible exactly when the viewport is Mobile and
the stored value is `mobile_open`, and hidden in every other case, whatever
its visibility was before. -/
theorem overlay_set_by_applyOverlayState (w : World) :
    (applyInstantSidebarState w).sidebarOverlay = w.sidebarOverlay ∧
    (∀ o, w.sidebarOverlay = some o →
      ∃ o', (Main.applyOverlayState (applyInstantSidebarState w)).sidebarOverlay = some o' ∧
        (overlayVisible o' = true ↔
          (w.innerWidth ≤ 1024 ∧
            w.localStorage.getItem STORAGE_KEY = some "mobile_open")) ∧
        (overlayHidden o' = true ↔
          ¬ (w.innerWidth ≤ 1024 ∧
            w.localStorage.getItem STORAGE_KEY = some "mobile_open"))) := by
  refine ⟨(apply_frame w).2.2.2.1, ?_⟩
  intro o ho
  have hget := getSidebarState_eq_iff w "mobile_open" (by decide)
  rw [applyOverlayState_overlay, (apply_frame w).2.2.2.1, (apply_frame w).1,
    getSidebarState_apply, ho]
  refine ⟨_, rfl, ?_, ?_⟩
  · rw [← hget]
    by_cases hc : w.innerWidth ≤ 1024 ∧ getSidebarState w = "mobile_open"
    · simp [overlayVisible, hc]
    · simp only [overlayVisible, if_neg hc]
      simp [hc]
  · rw [← hget]
    by_cases hc : w.innerWidth ≤ 1024 ∧ getSidebarState w = "mobile_open"
    · simp only [overlayHidden, if_pos hc]
      simp [hc]
    · simp [overlayHidden, hc]

/-- Witness of C3, amended: the page of the counterexample, where
`applyOverlayState` then shows the overlay. -/
theorem overlay_set_by_applyOverlayState_witness :
    Fixture.mobileOpenStored.sidebarOverlay = some { Fixture.plain with display := "none" } ∧
    ∃ o', (Main.applyOverlayState
        (applyInstantSidebarState Fixture.mobileOpenStored)).sidebarOverlay = some o' ∧
      (overlayVisible o' = true ↔
        (Fixture.mobileOpenStored.innerWidth ≤ 1024 ∧
          Fixture.mobileOpenStored.localStorage.getItem STORAGE_KEY = some "mobile_open")) ∧
      (overlayHidden o' = true ↔
        ¬ (Fixture.mobileOpenStored.innerWidth ≤ 1024 ∧
          Fixture.mobileOpenStored.localStorage.getItem STORAGE_KEY = some "mobile_open")) :=
  ⟨rfl, (overlay_set_by_applyOverlayState Fixture.mobileOpenStored).2 _ rfl⟩

end TEOmanager

/-! ## Order of the writes of `applyInstantSidebarState` -/

namespace TEOmanager

open SidebarPersistence

theorem mem_elementsToDisable (w : World) (el : ElemId) :
    el ∈ elementsToDisable w ↔
      (el = .sidebar ∨ el = .navbar ∨ el = .mainContent) ∧
        (w.getElementById el).isSome = true := by
  simp [elementsToDisable, List.mem_filter]

theorem apply_trace (w : World) (hs : w.sidebar.isSome = true) :
    (applyInstantSidebarState w).trace =
      w.trace ++ (elementsToDisable w).map (fun el => Event.classAdd el "no-transition") ++
        (if isMobile w then
          if getSidebarState w = "mobile_open" then [Event.classAdd .sidebar "active"]
          else [Event.classRemove .sidebar "active"]
        else
          if getSidebarState w = "desktop_collapsed" then
            [Event.classAdd .sidebar "collapsed"] ++
              (if w.navbar.isSome then [Event.classAdd .navbar "sidebar-collapsed"] else []) ++
              (if w.mainContent.isSome then [Event.classAdd .mainContent "sidebar-collapsed"]
                else [])
          else
            [Event.classRemove .sidebar "collapsed"] ++
              (if w.navbar.isSome then [Event.classRemove .navbar "sidebar-collapsed"]
                else []) ++
              (if w.mainContent.isSome then [Event.classRemove .mainContent "sidebar-collapsed"]
                else [])) := by
  obtain ⟨iw, now, ls, sb, nb, mc, so, st, sp, tm, nt, tr, co⟩ := w
  cases sb with
  | none => simp at hs
  | some s =>
    cases nb <;> cases mc <;>
      simp [applyInstantSidebarState, elementsToDisable, World.getElementById, isMobile,
        World.classListAdd, World.classListRemove, World.updateElement, World.record,
        World.setTimeout, World.log] <;>
      split_ifs <;> simp

theorem apply_timers (w : World) (hs : w.sidebar.isSome = true) :
    (applyInstantSidebarState w).timers =
      w.timers ++ [{ id := w.nextTimer, due := w.now + 50,
                     action := .reenableTransitions (elementsToDisable w) }] := by
  obtain ⟨iw, now, ls, sb, nb, mc, so, st, sp, tm, nt, tr, co⟩ := w
  cases sb with
  | none => simp at hs
  | some s =>
    cases nb <;> cases mc <;>
      simp [applyInstantSidebarState, elementsToDisable, World.getElementById, isMobile,
        World.classListAdd, World.classListRemove, World.updateElement, World.record,
        World.setTimeout, World.log] <;>
      split_ifs <;> simp

theorem getElementById_updateElement (w : World) (el el' : ElemId) (f : Element → Element) :
    (w.updateElement el f).getElementById el' =
      if el' = el then (w.getElementById el').map f else w.getElementById el' := by
  cases el <;> cases el' <;> simp [World.updateElement, World.getElementById]

theorem getElementById_record (w : World) (e : Event) (el : ElemId) :
    (w.record e).getElementById el = w.getElementById el := by
  cases el <;> rfl

theorem hasClass_classListRemove (w : World) (el el' : ElemId) (c c' : String) :
    (w.classListRemove el c).hasClass el' c' =
      (w.hasClass el' c' && !(decide (el' = el) && decide (c' = c))) := by
  unfold World.classListRemove World.hasClass
  rw [getElementById_record, getElementById_updateElement]
  by_cases h : el' = el
  · cases hg : w.getElementById el' with
    | none => simp [h]
    | some e =>
      by_cases hc : c' = c <;> simp [h, tokenContains, mem_tokenRemove, hc]
  · simp [h]

theorem hasClass_foldl_remove (els : List ElemId) (c : String) (w : World) (el : ElemId)
    (c' : String) :
    (els.foldl (fun acc e => acc.classListRemove e c) w).hasClass el c' =
      (w.hasClass el c' && !(decide (el ∈ els) && decide (c' = c))) := by
  induction els generalizing w with
  | nil => simp
  | cons e rest ih =>
    rw [List.foldl_cons, ih, hasClass_classListRemove]
    by_cases h1 : el = e <;> by_cases h2 : c' = c <;> by_cases h3 : el ∈ rest <;>
      simp [h1, h2, h3]

theorem apply_marker (w : World) (hs : w.sidebar.isSome = true) (el : ElemId)
    (hel : el ∈ elementsToDisable w) :
    (applyInstantSidebarState w).hasClass el "no-transition" = true := by
  obtain ⟨htarget, hpresent⟩ := (mem_elementsToDisable w el).mp hel
  rcases htarget with h | h | h <;> subst h
  · obtain ⟨s, hsb⟩ := Option.isSome_iff_exists.mp hs
    simp only [World.hasClass, World.getElementById, apply_sidebar w s hsb, tokenContains]
    split_ifs <;> simp [mem_tokenAdd, mem_tokenRemove]
  · obtain ⟨n, hn⟩ := Option.isSome_iff_exists.mp hpresent
    simp only [World.getElementById] at hn
    simp only [World.hasClass, World.getElementById, apply_navbar w hs, hn, tokenContains,
      Option.map_some']
    split_ifs <;> simp [mem_tokenAdd, mem_tokenRemove]
  · obtain ⟨n, hn⟩ := Option.isSome_iff_exists.mp hpresent
    simp only [World.getElementById] at hn
    simp only [World.hasClass, World.getElementById, apply_mainContent w hs, hn, tokenContains,
      Option.map_some']
    split_ifs <;> simp [mem_tokenAdd, mem_tokenRemove]

end TEOmanager

namespace TEOmanager

open SidebarPersistence

/-- Claim C4. In a call of `apply()` with the sidebar present, the writes come in
this order: first `no-transition` is added to every present target, then the
state classes `active`, `collapsed`, `sidebar-collapsed` are added or removed.
The call itself never removes `no-transition`: it leaves one new timer, due 50
ms later, whose callback removes the marker and touches no other class. On
return, every present target carries `no-transition`. -/
theorem apply_disables_then_mutates (w : World) (hs : w.sidebar.isSome = true) :
    ∃ marks changes,
      (applyInstantSidebarState w).trace = w.trace ++ marks ++ changes ∧
      (∀ e ∈ marks, ∃ el, e = Event.classAdd el "no-transition") ∧
      (∀ el, (el = .sidebar ∨ el = .navbar ∨ el = .mainContent) →
        (w.getElementById el).isSome = true →
          Event.classAdd el "no-transition" ∈ marks ∧
          (applyInstantSidebarState w).hasClass el "no-transition" = true) ∧
      (∀ e ∈ changes, ∃ el c, (e = Event.classAdd el c ∨ e = Event.classRemove el c) ∧
        (c = "active" ∨ c = "collapsed" ∨ c = "sidebar-collapsed")) ∧
      (∀ el, Event.classRemove el "no-transition" ∉ marks ++ changes) ∧
      ∃ t, (applyInstantSidebarState w).timers = w.timers ++ [t] ∧
        t.due = w.now + 50 ∧
        (∀ el, (el = .sidebar ∨ el = .navbar ∨ el = .mainContent) →
          (runTimerAction (applyInstantSidebarState w) t.action).hasClass el "no-transition"
            = false) ∧
        (∀ el c, c ≠ "no-transition" →
          (runTimerAction (applyInstantSidebarState w) t.action).hasClass el c =
            (applyInstantSidebarState w).hasClass el c) := by
  refine ⟨_, _, apply_trace w hs, ?_, ?_, ?_, ?_, _, apply_timers w hs, rfl, ?_, ?_⟩
  · intro e he
    obtain ⟨el, -, rfl⟩ := List.mem_map.mp he
    exact ⟨el, rfl⟩
  · intro el htarget hpresent
    have hmem : el ∈ elementsToDisable w := (mem_elementsToDisable w el).mpr ⟨htarget, hpresent⟩
    exact ⟨List.mem_map.mpr ⟨el, hmem, rfl⟩, apply_marker w hs el hmem⟩
  · intro e he
    split_ifs at he <;> simp at he <;> rcases he with rfl | rfl | rfl <;>
      first
      | exact ⟨_, _, Or.inl rfl, by simp⟩
      | exact ⟨_, _, Or.inr rfl, by simp⟩
  · intro el hmem
    rcases List.mem_append.mp hmem with h | h
    · obtain ⟨el', -, h'⟩ := List.mem_map.mp h
      cases h'
    · split_ifs at h <;> simp at h
  · intro el htarget
    simp only [runTimerAction, hasClass_foldl_remove]
    by_cases hpresent : (w.getElementById el).isSome = true
    · have hmem : el ∈ elementsToDisable w :=
        (mem_elementsToDisable w el).mpr ⟨htarget, hpresent⟩
      simp [hmem]
    · have habs : ((applyInstantSidebarState w).getElementById el).isSome = false := by
        rcases htarget with h | h | h <;> subst h
        · exact absurd hs hpresent
        · simp only [World.getElementById] at hpresent ⊢
          rw [apply_navbar w hs]
          simpa using hpresent
        · simp only [World.getElementById] at hpresent ⊢
          rw [apply_mainContent w hs]
          simpa using hpresent
      have : (applyInstantSidebarState w).hasClass el "no-transition" = false := by
        unfold World.hasClass
        cases hg : (applyInstantSidebarState w).getElementById el with
        | none => rfl
        | some e => simp [hg] at habs
      simp [this]
  · intro el c hc
    simp [runTimerAction, hasClass_foldl_remove, hc]

end TEOmanager

namespace TEOmanager

open SidebarPersistence

/-- Witness of C4: the first visit on a desktop window. -/
theorem apply_disables_then_mutates_witness :
    Fixture.freshDesktop.sidebar.isSome = true ∧
    ∃ marks changes,
      (applyInstantSidebarState Fixture.freshDesktop).trace =
        Fixture.freshDesktop.trace ++ marks ++ changes ∧
      (∀ e ∈ marks, ∃ el, e = Event.classAdd el "no-transition") ∧
      (∀ e ∈ changes, ∃ el c, (e = Event.classAdd el c ∨ e = Event.classRemove el c) ∧
        (c = "active" ∨ c = "collapsed" ∨ c = "sidebar-collapsed")) :=
  ⟨rfl,
    match apply_disables_then_mutates Fixture.freshDesktop rfl with
    | ⟨marks, changes, htrace, hmarks, _, hchanges, _⟩ =>
      ⟨marks, changes, htrace, hmarks, hchanges⟩⟩

/-! ## Idempotence of `applyInstantSidebarState` -/

theorem tokenAdd_add_again (l : List String) (c1 c2 : String) :
    tokenAdd (tokenAdd (tokenAdd (tokenAdd l c1) c2) c1) c2 = tokenAdd (tokenAdd l c1) c2 := by
  rw [tokenAdd_of_mem (tokenAdd (tokenAdd l c1) c2) c1 (by simp [mem_tokenAdd]),
    tokenAdd_of_mem (tokenAdd (tokenAdd l c1) c2) c2 (by simp [mem_tokenAdd])]

theorem tokenRemove_add_again (l : List String) (c1 c2 : String) (h : c1 ≠ c2) :
    tokenRemove (tokenAdd (tokenRemove (tokenAdd l c1) c2) c1) c2 =
      tokenRemove (tokenAdd l c1) c2 := by
  rw [tokenAdd_of_mem (tokenRemove (tokenAdd l c1) c2) c1
      (by simp [mem_tokenAdd, mem_tokenRemove, h]),
    tokenRemove_of_not_mem (tokenRemove (tokenAdd l c1) c2) c2 (by simp [mem_tokenRemove])]

theorem tokenAdd_again (l : List String) (c : String) :
    tokenAdd (tokenAdd l c) c = tokenAdd l c :=
  tokenAdd_of_mem _ _ (by simp [mem_tokenAdd])

theorem isMobile_apply (w : World) :
    isMobile (applyInstantSidebarState w) = isMobile w := by
  unfold isMobile
  rw [(apply_frame w).1]

/-- Claim C5. Calling `apply()` a second time, with storage and viewport as the
first call left them, changes no class list: the class lists of the sidebar,
the navbar and the main content after the second call are those after the
first. -/
theorem apply_idempotent (w : World) :
    (applyInstantSidebarState (applyInstantSidebarState w)).sidebar.map Element.classList =
      (applyInstantSidebarState w).sidebar.map Element.classList ∧
    (applyInstantSidebarState (applyInstantSidebarState w)).navbar.map Element.classList =
      (applyInstantSidebarState w).navbar.map Element.classList ∧
    (applyInstantSidebarState (applyInstantSidebarState w)).mainContent.map Element.classList =
      (applyInstantSidebarState w).mainContent.map Element.classList := by
  cases hsb : w.sidebar with
  | none => simp [apply_absent w hsb]
  | some s =>
    have hs : w.sidebar.isSome = true := by simp [hsb]
    have h1 := apply_sidebar w s hsb
    have hs' : (applyInstantSidebarState w).sidebar.isSome = true := by simp [h1]
    have r1 := fun l => tokenRemove_add_again l "no-transition" "active" (by decide)
    have r2 := fun l => tokenRemove_add_again l "no-transition" "collapsed" (by decide)
    have r3 := fun l => tokenRemove_add_again l "no-transition" "sidebar-collapsed" (by decide)
    refine ⟨?_, ?_, ?_⟩
    · rw [apply_sidebar _ _ h1, isMobile_apply, getSidebarState_apply, h1]
      simp only [Option.map_some']
      split_ifs <;>
        simp only [tokenAdd_add_again, r1, r2]
    · rw [apply_navbar _ hs', isMobile_apply, getSidebarState_apply, apply_navbar w hs]
      cases w.navbar with
      | none => rfl
      | some n =>
        simp only [Option.map_some']
        split_ifs <;>
          simp only [tokenAdd_add_again, r3, tokenAdd_again]
    · rw [apply_mainContent _ hs', isMobile_apply, getSidebarState_apply,
        apply_mainContent w hs]
      cases w.mainContent with
      | none => rfl
      | some n =>
        simp only [Option.map_some']
        split_ifs <;>
          simp only [tokenAdd_add_again, r3, tokenAdd_again]

end TEOmanager

/-! ## `get` and `set` -/

namespace TEOmanager

open SidebarPersistence

theorem getSidebarState_setSidebarState (w : World) (state : String) :
    getSidebarState (setSidebarState state w) = state := by
  unfold setSidebarState getSidebarState
  by_cases h : state = ""
  · simp [h, getItem_removeItem, orElse]
  · simp [h, getItem_setItem, orElse]

/-- Claim C6. For each of the four valid states (Unset is the empty string) and
every prior storage content, `get()` right after `set(S)` returns `S`. -/
theorem get_after_set (w : World) (S : String)
    (hS : S = "" ∨ S = "desktop_collapsed" ∨ S = "mobile_open" ∨ S = "mobile_closed") :
    getSidebarState (setSidebarState S w) = S := by
  rcases hS with h | h | h | h <;> subst h <;> exact getSidebarState_setSidebarState w _

/-- Witness of C6: `mobile_closed` written over a stored `mobile_open`. -/
theorem get_after_set_witness :
    ("mobile_closed" = "" ∨ "mobile_closed" = "desktop_collapsed" ∨
      "mobile_closed" = "mobile_open" ∨ "mobile_closed" = "mobile_closed") ∧
    getSidebarState (setSidebarState "mobile_closed" Fixture.mobileOpenStored)
      = "mobile_closed" :=
  ⟨by decide, get_after_set Fixture.mobileOpenStored "mobile_closed" (by decide)⟩

/-- Claim C7. Whatever the storage held, after `set(Unset)` no pair with the key
`teomanager_sidebar_state` is left in it, `getItem` answers `null`, and `get()`
returns Unset. -/
theorem set_unset_removes_key (w : World) :
    (∀ kv ∈ (setSidebarState "" w).localStorage.items, kv.1 ≠ "teomanager_sidebar_state") ∧
    (setSidebarState "" w).localStorage.getItem "teomanager_sidebar_state" = none ∧
    getSidebarState (setSidebarState "" w) = "" := by
  refine ⟨?_, ?_, getSidebarState_setSidebarState w ""⟩
  · simpa [setSidebarState] using removeItem_absent w.localStorage STORAGE_KEY
  · simpa [setSidebarState] using getItem_removeItem w.localStorage STORAGE_KEY

/-- Counterexample to C8: with the unknown label `expanded` stored, `get()`
returns `expanded`, not Unset, and so differs from its result on an empty
storage. -/
theorem get_unrecognised_counterexample :
    Fixture.legacyStored.localStorage.getItem STORAGE_KEY = some "expanded" ∧
    "expanded" ≠ "desktop_collapsed" ∧ "expanded" ≠ "mobile_open" ∧
    "expanded" ≠ "mobile_closed" ∧
    getSidebarState Fixture.legacyStored = "expanded" ∧
    getSidebarState Fixture.legacyStored ≠ "" ∧
    getSidebarState Fixture.legacyStored ≠ getSidebarState Fixture.freshDesktop := by
  decide

theorem getSidebarState_cleared (w : World) :
    getSidebarState { w with localStorage := w.localStorage.removeItem STORAGE_KEY } = "" := by
  simp [getSidebarState, getItem_removeItem, orElse]

theorem apply_targets_congr (w v : World) (hsb : v.sidebar = w.sidebar)
    (hnb : v.navbar = w.navbar) (hmc : v.mainContent = w.mainContent)
    (hm : isMobile v = isMobile w)
    (hmo : getSidebarState v = "mobile_open" ↔ getSidebarState w = "mobile_open")
    (hdc : getSidebarState v = "desktop_collapsed" ↔ getSidebarState w = "desktop_collapsed") :
    (applyInstantSidebarState v).sidebar = (applyInstantSidebarState w).sidebar ∧
    (applyInstantSidebarState v).navbar = (applyInstantSidebarState w).navbar ∧
    (applyInstantSidebarState v).mainContent = (applyInstantSidebarState w).mainContent := by
  cases hw : w.sidebar with
  | none =>
    rw [apply_absent w hw, apply_absent v (hsb.trans hw)]
    exact ⟨hsb, hnb, hmc⟩
  | some e =>
    have hp : w.sidebar.isSome = true := by simp [hw]
    have hq : v.sidebar.isSome = true := by simp [hsb, hw]
    refine ⟨?_, ?_, ?_⟩
    · rw [apply_sidebar w e hw, apply_sidebar v e (hsb.trans hw), hm]
      simp only [hmo, hdc]
    · rw [apply_navbar w hp, apply_navbar v hq, hm, hnb]
      simp only [hdc]
    · rw [apply_mainContent w hp, apply_mainContent v hq, hm, hmc]
      simp only [hdc]

/-- Claim C8, amended. `get()` does not check the label: for a stored string that
is not one of the recognised labels it returns that string as it is (so Unset
only when the string is empty). It is `apply()` that treats such a value as
Unset: it leaves the sidebar, the navbar and the main content exactly as it
does when the key is absent. -/
theorem get_returns_stored_string (w : World) (s : String)
    (hstored : w.localStorage.getItem STORAGE_KEY = some s)
    (hs : s ≠ "desktop_collapsed" ∧ s ≠ "mobile_open" ∧ s ≠ "mobile_closed") :
    getSidebarState w = s ∧
    (applyInstantSidebarState w).sidebar =
      (applyInstantSidebarState
        { w with localStorage := w.localStorage.removeItem STORAGE_KEY }).sidebar ∧
    (applyInstantSidebarState w).navbar =
      (applyInstantSidebarState
        { w with localStorage := w.localStorage.removeItem STORAGE_KEY }).navbar ∧
    (applyInstantSidebarState w).mainContent =
      (applyInstantSidebarState
        { w with localStorage := w.localStorage.removeItem STORAGE_KEY }).mainContent := by
  have hget : getSidebarState w = s := by
    unfold getSidebarState orElse
    rw [hstored]
    by_cases h : s = "" <;> simp [h]
  have hclr := getSidebarState_cleared w
  refine ⟨hget, ?_⟩
  exact apply_targets_congr
    { w with localStorage := w.localStorage.removeItem STORAGE_KEY } w rfl rfl rfl rfl
    (by rw [hclr, hget]; simp [hs.2.1]) (by rw [hclr, hget]; simp [hs.1])

/-- Witness of C8, amended: the unknown label `expanded`. -/
theorem get_returns_stored_string_witness :
    Fixture.legacyStored.localStorage.getItem STORAGE_KEY = some "expanded" ∧
    ("expanded" ≠ "desktop_collapsed" ∧ "expanded" ≠ "mobile_open" ∧
      "expanded" ≠ "mobile_closed") ∧
    getSidebarState Fixture.legacyStored = "expanded" :=
  ⟨by decide, by decide,
    (get_returns_stored_string Fixture.legacyStored "expanded" (by decide) (by decide)).1⟩

end TEOmanager

/-! ## The toggle control -/

namespace TEOmanager

open SidebarPersistence

theorem clickOnToggle_eq (inSidebar : Bool) (w : World)
    (hl : Main.listenersInstalled w = true) :
    Main.clickOnToggle inSidebar w = Main.sidebarToggleClick w := by
  simp [Main.clickOnToggle, hl, Main.documentClick]

theorem main_setSidebarState_frame (state : String) (w : World) :
    Main.setSidebarState state w =
      { w with localStorage := (Main.setSidebarState state w).localStorage } := by
  unfold Main.setSidebarState setSidebarState
  split_ifs <;> rfl

theorem main_setSidebarState_getItem (state : String) (w : World) :
    (Main.setSidebarState state w).localStorage.getItem STORAGE_KEY =
      if state = "" then none else some state := by
  unfold Main.setSidebarState setSidebarState
  split_ifs <;> simp_all [getItem_setItem, getItem_removeItem, STORAGE_KEY]

theorem toggleClick_mobile (w : World) (hm : w.innerWidth ≤ 1024) :
    (Main.sidebarToggleClick w).sidebar =
      w.sidebar.map (fun s => { s with classList := tokenToggle s.classList "active" }) ∧
    (Main.sidebarToggleClick w).navbar = w.navbar ∧
    (Main.sidebarToggleClick w).mainContent = w.mainContent ∧
    (Main.sidebarToggleClick w).sidebarToggle = w.sidebarToggle ∧
    (Main.sidebarToggleClick w).sidebarOverlay =
      w.sidebarOverlay.map (fun o => { o with display := (
        if (Main.sidebarToggleClick w).hasClass .sidebar "active" then "block" else "none") }) ∧
    (Main.sidebarToggleClick w).localStorage.getItem STORAGE_KEY =
      some (if (Main.sidebarToggleClick w).hasClass .sidebar "active" then "mobile_open"
        else "mobile_closed") ∧
    (Main.sidebarToggleClick w).timers = w.timers ∧
    (Main.sidebarToggleClick w).trace = w.trace ++ [Event.classToggle .sidebar "active"] ++
      (if w.sidebarOverlay.isSome then
        [Event.styleDisplay .sidebarOverlay (
          if (Main.sidebarToggleClick w).hasClass .sidebar "active" then "block" else "none")]
       else []) := by
  have hmob : Main.isMobile w = true := by simp [Main.isMobile, hm]
  unfold Main.sidebarToggleClick
  simp only [hmob, if_true]
  rw [main_setSidebarState_frame]
  simp only [main_setSidebarState_getItem]
  obtain ⟨iw, now, ls, sb, nb, mc, so, st, sp, tm, nt, tr, co⟩ := w
  cases sb <;> cases so <;>
    simp [World.classListToggle, World.setDisplay, World.updateElement, World.record,
      World.hasClass, World.getElementById] <;>
    split_ifs <;> simp

end TEOmanager

namespace TEOmanager

open SidebarPersistence

theorem tokenContains_toggle_self (l : List String) (c : String) :
    tokenContains (tokenToggle l c) c = !tokenContains l c := by
  by_cases h : c ∈ l <;> simp [tokenContains, mem_tokenToggle_self, h]

theorem tokenContains_toggle_of_ne (l : List String) (c x : String) (hx : x ≠ c) :
    tokenContains (tokenToggle l c) x = tokenContains l x := by
  simp [tokenContains, mem_tokenToggle_of_ne l c x hx]

/-- Claim C9. A click on the toggle control on a Mobile viewport (width at most
1024), with the listeners installed: the sidebar's `active` class is flipped;
the overlay, when present, is shown exactly when `active` is on afterwards and
hidden otherwise; the stored value becomes `mobile_open` when `active` is on
afterwards and `mobile_closed` otherwise; no element gains or loses
`no-transition`, no inline `transition` style is written and no timer is
started. From a closed sidebar the result is `mobile_open` stored, `active`
on, overlay shown. -/
theorem toggle_click_mobile (w : World) (inSidebar : Bool)
    (hl : Main.listenersInstalled w = true) (hm : w.innerWidth ≤ 1024) :
    (Main.clickOnToggle inSidebar w).hasClass .sidebar "active" =
      (!w.hasClass .sidebar "active") ∧
    (Main.clickOnToggle inSidebar w).sidebarOverlay.isSome = w.sidebarOverlay.isSome ∧
    (∀ o, (Main.clickOnToggle inSidebar w).sidebarOverlay = some o →
      overlayVisible o = (Main.clickOnToggle inSidebar w).hasClass .sidebar "active" ∧
      overlayHidden o = !(Main.clickOnToggle inSidebar w).hasClass .sidebar "active") ∧
    (Main.clickOnToggle inSidebar w).localStorage.getItem STORAGE_KEY =
      some (if (Main.clickOnToggle inSidebar w).hasClass .sidebar "active" then "mobile_open"
        else "mobile_closed") ∧
    (∀ el, (Main.clickOnToggle inSidebar w).hasClass el "no-transition" =
      w.hasClass el "no-transition") ∧
    (∀ el, ((Main.clickOnToggle inSidebar w).getElementById el).map Element.transition =
      (w.getElementById el).map Element.transition) ∧
    (Main.clickOnToggle inSidebar w).timers = w.timers ∧
    (∃ evs, (Main.clickOnToggle inSidebar w).trace = w.trace ++ evs ∧
      ∀ e ∈ evs, (∀ el v, e ≠ Event.styleTransition el v) ∧
        (∀ el, e ≠ Event.classAdd el "no-transition")) ∧
    (w.hasClass .sidebar "active" = false →
      (Main.clickOnToggle inSidebar w).hasClass .sidebar "active" = true ∧
      (Main.clickOnToggle inSidebar w).localStorage.getItem STORAGE_KEY = some "mobile_open" ∧
      ∀ o, (Main.clickOnToggle inSidebar w).sidebarOverlay = some o →
        overlayVisible o = true) := by
  rw [clickOnToggle_eq inSidebar w hl]
  obtain ⟨hsb, hnb, hmc, hst, hso, hls, htm, htr⟩ := toggleClick_mobile w hm
  have hpresent : w.sidebar.isSome = true := by
    simp only [Main.listenersInstalled, Bool.and_eq_true] at hl
    exact hl.1
  obtain ⟨s, hs⟩ := Option.isSome_iff_exists.mp hpresent
  have hflip : (Main.sidebarToggleClick w).hasClass .sidebar "active" =
      (!w.hasClass .sidebar "active") := by
    simp only [World.hasClass, World.getElementById, hsb, hs, Option.map_some',
      tokenContains_toggle_self]
  have hov : ∀ o, (Main.sidebarToggleClick w).sidebarOverlay = some o →
      overlayVisible o = (Main.sidebarToggleClick w).hasClass .sidebar "active" ∧
      overlayHidden o = !(Main.sidebarToggleClick w).hasClass .sidebar "active" := by
    intro o ho
    rw [hso] at ho
    cases hw : w.sidebarOverlay with
    | none => simp [hw] at ho
    | some o0 =>
      rw [hw, Option.map_some', Option.some.injEq] at ho
      subst ho
      cases (Main.sidebarToggleClick w).hasClass .sidebar "active" <;>
        simp [overlayVisible, overlayHidden]
  refine ⟨hflip, ?_, hov, hls, ?_, ?_, htm, ⟨_, by rw [htr, List.append_assoc], ?_⟩, ?_⟩
  · rw [hso]
    cases w.sidebarOverlay <;> rfl
  · intro el
    cases el <;> simp only [World.hasClass, World.getElementById, hsb, hnb, hmc, hst, hso]
    · simp [hs, tokenContains_toggle_of_ne]
    · cases w.sidebarOverlay <;> rfl
  · intro el
    cases el <;> simp only [World.getElementById, hsb, hnb, hmc, hst, hso]
    · cases w.sidebar <;> rfl
    · cases w.sidebarOverlay <;> rfl
  · intro e he
    split_ifs at he <;> simp at he <;> rcases he with rfl | rfl <;> simp
  · intro hclosed
    have hon : (Main.sidebarToggleClick w).hasClass .sidebar "active" = true := by
      rw [hflip, hclosed]
      rfl
    refine ⟨hon, ?_, ?_⟩
    · rw [hls, hon]
      rfl
    · intro o ho
      rw [(hov o ho).1, hon]

/-- Witness of C9: the closed sidebar of an 800 px wide window. -/
theorem toggle_click_mobile_witness :
    Main.listenersInstalled Fixture.mobileClosed = true ∧
    Fixture.mobileClosed.innerWidth ≤ 1024 ∧
    Fixture.mobileClosed.hasClass .sidebar "active" = false ∧
    (Main.clickOnToggle false Fixture.mobileClosed).hasClass .sidebar "active" = true ∧
    (Main.clickOnToggle false Fixture.mobileClosed).localStorage.getItem STORAGE_KEY =
      some "mobile_open" ∧
    ∀ o, (Main.clickOnToggle false Fixture.mobileClosed).sidebarOverlay = some o →
      overlayVisible o = true :=
  ⟨rfl, by decide, rfl,
    (toggle_click_mobile Fixture.mobileClosed false rfl (by decide)).2.2.2.2.2.2.2.2 rfl⟩

end TEOmanager

namespace TEOmanager

open SidebarPersistence

theorem getItem_eq_none_iff (s : Storage) (key : String) :
    s.getItem key = none ↔ ∀ kv ∈ s.items, kv.1 ≠ key := by
  simp [Storage.getItem, List.find?_eq_none]

theorem toggleClick_desktop (w : World) (hd : 1024 < w.innerWidth) :
    (Main.sidebarToggleClick w).sidebar =
      w.sidebar.map (fun s => { s with classList := tokenToggle s.classList "collapsed" }) ∧
    (Main.sidebarToggleClick w).navbar =
      w.navbar.map (fun n =>
        { n with classList := tokenToggle n.classList "sidebar-collapsed" }) ∧
    (Main.sidebarToggleClick w).mainContent =
      w.mainContent.map (fun n =>
        { n with classList := tokenToggle n.classList "sidebar-collapsed" }) ∧
    (Main.sidebarToggleClick w).localStorage.getItem STORAGE_KEY =
      (if (Main.sidebarToggleClick w).hasClass .sidebar "collapsed" then
        some "desktop_collapsed" else none) := by
  have hmob : Main.isMobile w = false := by simp [Main.isMobile, hd]
  unfold Main.sidebarToggleClick
  simp only [hmob, Bool.false_eq_true, if_false]
  rw [main_setSidebarState_frame]
  simp only [main_setSidebarState_getItem]
  obtain ⟨iw, now, ls, sb, nb, mc, so, st, sp, tm, nt, tr, co⟩ := w
  cases sb <;> cases nb <;> cases mc <;>
    simp [World.classListToggle, World.updateElement, World.record,
      World.hasClass, World.getElementById] <;>
    split_ifs <;> simp_all

/-- Claim C10. A click on the toggle control on a Desktop viewport (width above
1024), with the listeners installed: `collapsed` is flipped on the sidebar and
`sidebar-collapsed` is flipped on the navbar and on the main content, each
when present; afterwards the stored value is `desktop_collapsed` when the
sidebar carries `collapsed`, and otherwise the key is removed from storage. -/
theorem toggle_click_desktop (w : World) (inSidebar : Bool)
    (hl : Main.listenersInstalled w = true) (hd : 1024 < w.innerWidth) :
    (Main.clickOnToggle inSidebar w).hasClass .sidebar "collapsed" =
      (!w.hasClass .sidebar "collapsed") ∧
    (w.navbar.isSome = true →
      (Main.clickOnToggle inSidebar w).hasClass .navbar "sidebar-collapsed" =
        !w.hasClass .navbar "sidebar-collapsed") ∧
    (w.mainContent.isSome = true →
      (Main.clickOnToggle inSidebar w).hasClass .mainContent "sidebar-collapsed" =
        !w.hasClass .mainContent "sidebar-collapsed") ∧
    ((Main.clickOnToggle inSidebar w).hasClass .sidebar "collapsed" = true →
      (Main.clickOnToggle inSidebar w).localStorage.getItem STORAGE_KEY =
        some "desktop_collapsed") ∧
    ((Main.clickOnToggle inSidebar w).hasClass .sidebar "collapsed" = false →
      (Main.clickOnToggle inSidebar w).localStorage.getItem STORAGE_KEY = none ∧
      (∀ kv ∈ (Main.clickOnToggle inSidebar w).localStorage.items, kv.1 ≠ STORAGE_KEY) ∧
      getSidebarState (Main.clickOnToggle inSidebar w) = "") := by
  rw [clickOnToggle_eq inSidebar w hl]
  obtain ⟨hsb, hnb, hmc, hls⟩ := toggleClick_desktop w hd
  have hpresent : w.sidebar.isSome = true := by
    simp only [Main.listenersInstalled, Bool.and_eq_true] at hl
    exact hl.1
  obtain ⟨s, hs⟩ := Option.isSome_iff_exists.mp hpresent
  refine ⟨?_, ?_, ?_, ?_, ?_⟩
  · simp only [World.hasClass, World.getElementById, hsb, hs, Option.map_some',
      tokenContains_toggle_self]
  · intro hn
    obtain ⟨n, hn⟩ := Option.isSome_iff_exists.mp hn
    simp only [World.hasClass, World.getElementById, hnb, hn, Option.map_some',
      tokenContains_toggle_self]
  · intro hn
    obtain ⟨n, hn⟩ := Option.isSome_iff_exists.mp hn
    simp only [World.hasClass, World.getElementById, hmc, hn, Option.map_some',
      tokenContains_toggle_self]
  · intro hc
    rw [hls, hc]
    rfl
  · intro hc
    have hnone : (Main.sidebarToggleClick w).localStorage.getItem STORAGE_KEY = none := by
      rw [hls, hc]
      rfl
    refine ⟨hnone, (getItem_eq_none_iff _ _).mp hnone, ?_⟩
    simp [getSidebarState, hnone, orElse]

/-- Witness of C10: the expanded sidebar of a 1280 px wide window. -/
theorem toggle_click_desktop_witness :
    Main.listenersInstalled Fixture.freshDesktop = true ∧
    1024 < Fixture.freshDesktop.innerWidth ∧
    (Main.clickOnToggle false Fixture.freshDesktop).hasClass .sidebar "collapsed" =
      (!Fixture.freshDesktop.hasClass .sidebar "collapsed") ∧
    ((Main.clickOnToggle false Fixture.freshDesktop).hasClass .sidebar "collapsed" = true →
      (Main.clickOnToggle false Fixture.freshDesktop).localStorage.getItem STORAGE_KEY =
        some "desktop_collapsed") :=
  ⟨rfl, by decide,
    (toggle_click_desktop Fixture.freshDesktop false rfl (by decide)).1,
    (toggle_click_desktop Fixture.freshDesktop false rfl (by decide)).2.2.2.1⟩

end TEOmanager

namespace TEOmanager
open SidebarPersistence

theorem hasClass_apply_mobile (w : World) (hs : w.sidebar.isSome = true)
    (hm : isMobile w = true) (el : ElemId) (c : String) (hc : c ≠ "no-transition") :
    (applyInstantSidebarState w).hasClass el c =
      if el = .sidebar ∧ c = "active" then decide (getSidebarState w = "mobile_open")
      else w.hasClass el c := by
  obtain ⟨s, hsb⟩ := Option.isSome_iff_exists.mp hs
  cases el <;>
    simp only [World.hasClass, World.getElementById, apply_sidebar w s hsb, apply_navbar w hs,
      apply_mainContent w hs, (apply_frame w).2.2.2.1, (apply_frame w).2.2.2.2.1, hm, hsb,
      tokenContains, if_true]
  · by_cases hg : getSidebarState w = "mobile_open" <;> by_cases ha : c = "active" <;>
      simp [hg, ha, mem_tokenAdd, mem_tokenRemove, hc]
  · cases w.navbar <;> simp [mem_tokenAdd, hc]
  · cases w.mainContent <;> simp [mem_tokenAdd, hc]
  · simp
  · simp

theorem hasClass_apply_desktop (w : World) (hs : w.sidebar.isSome = true)
    (hm : isMobile w = false) (el : ElemId) (c : String) (hc : c ≠ "no-transition") :
    (applyInstantSidebarState w).hasClass el c =
      if (el = .sidebar ∧ c = "collapsed") ∨
          ((el = .navbar ∨ el = .mainContent) ∧ c = "sidebar-collapsed") then
        (decide (getSidebarState w = "desktop_collapsed") && (w.getElementById el).isSome)
      else w.hasClass el c := by
  obtain ⟨s, hsb⟩ := Option.isSome_iff_exists.mp hs
  cases el <;>
    simp only [World.hasClass, World.getElementById, apply_sidebar w s hsb, apply_navbar w hs,
      apply_mainContent w hs, (apply_frame w).2.2.2.1, (apply_frame w).2.2.2.2.1, hm, hsb,
      tokenContains]
  · by_cases hg : getSidebarState w = "desktop_collapsed" <;> by_cases ha : c = "collapsed" <;>
      simp [hg, ha, mem_tokenAdd, mem_tokenRemove, hc]
  · cases w.navbar <;>
      by_cases hg : getSidebarState w = "desktop_collapsed" <;>
      by_cases ha : c = "sidebar-collapsed" <;>
      simp [hg, ha, mem_tokenAdd, mem_tokenRemove, hc]
  · cases w.mainContent <;>
      by_cases hg : getSidebarState w = "desktop_collapsed" <;>
      by_cases ha : c = "sidebar-collapsed" <;>
      simp [hg, ha, mem_tokenAdd, mem_tokenRemove, hc]
  · simp
  · simp

end TEOmanager

namespace TEOmanager
open SidebarPersistence

/-! ## One stored value for both viewport modes -/

theorem toggleClick_frame (w : World) :
    (Main.sidebarToggleClick w).innerWidth = w.innerWidth ∧
    (Main.sidebarToggleClick w).sidebarPersistence = w.sidebarPersistence ∧
    (Main.sidebarToggleClick w).sidebar.isSome = w.sidebar.isSome ∧
    (Main.sidebarToggleClick w).navbar.isSome = w.navbar.isSome ∧
    (Main.sidebarToggleClick w).mainContent.isSome = w.mainContent.isSome := by
  unfold Main.sidebarToggleClick
  split_ifs <;> rw [main_setSidebarState_frame] <;>
    obtain ⟨iw, now, ls, sb, nb, mc, so, st, sp, tm, nt, tr, co⟩ := w <;>
    cases sb <;> cases nb <;> cases mc <;> cases so <;>
    simp [World.classListToggle, World.setDisplay, World.updateElement, World.record]

theorem getSidebarState_ne_of_getItem (w : World) (s t : String)
    (h : w.localStorage.getItem STORAGE_KEY = some s) (hst : s ≠ t) (ht : t ≠ "") :
    getSidebarState w ≠ t := by
  intro hg
  rw [getSidebarState_eq_iff w t ht, h] at hg
  exact hst (Option.some.inj hg)

theorem getSidebarState_of_getItem_none (w : World)
    (h : w.localStorage.getItem STORAGE_KEY = none) : getSidebarState w = "" := by
  simp [getSidebarState, h, orElse]

end TEOmanager

namespace TEOmanager
open SidebarPersistence

theorem toggleClick_mobile_hasClass (w : World) (hm : w.innerWidth ≤ 1024) (el : ElemId)
    (c : String) (hc : c ≠ "active") :
    (Main.sidebarToggleClick w).hasClass el c = w.hasClass el c := by
  obtain ⟨hsb, hnb, hmc, hst, hso, -, -, -⟩ := toggleClick_mobile w hm
  cases el <;> simp only [World.hasClass, World.getElementById, hsb, hnb, hmc, hst, hso]
  · cases w.sidebar with
    | none => rfl
    | some s => simp [tokenContains_toggle_of_ne _ _ _ hc]
  · cases w.sidebarOverlay <;> rfl

/-- Counterexample to C11: on an 800 px wide window with `desktop_collapsed`
stored, `apply()` at 1280 px would collapse the sidebar; after one toggle
click at 800 px it no longer does. -/
theorem toggle_other_mode_counterexample :
    Main.listenersInstalled Fixture.mobileWithDesktopPref = true ∧
    Fixture.mobileWithDesktopPref.innerWidth ≤ 1024 ∧
    (applyInstantSidebarState
      (Fixture.mobileWithDesktopPref.resizeTo 1280)).hasClass .sidebar "collapsed" = true ∧
    (applyInstantSidebarState
      ((Main.clickOnToggle false Fixture.mobileWithDesktopPref).resizeTo 1280)).hasClass
        .sidebar "collapsed" = false := by
  decide

/-- Claim C11, amended. The scripts keep one stored value for both modes, and a
toggle click overwrites it. After a toggle click in Mobile mode `apply()` in
Desktop mode always gives the expanded layout, so the desktop layout is the
same as before the click exactly when `desktop_collapsed` was not stored.
After a toggle click in Desktop mode `apply()` in Mobile mode always gives the
closed sidebar, so the mobile layout is the same as before the click exactly
when `mobile_open` was not stored. -/
theorem toggle_overwrites_other_mode (w : World) (inSidebar : Bool) (other : Nat)
    (hl : Main.listenersInstalled w = true) :
    (w.innerWidth ≤ 1024 → 1024 < other →
      (∀ el, (applyInstantSidebarState
          ((Main.clickOnToggle inSidebar w).resizeTo other)).hasClass el "collapsed" =
            (if el = .sidebar then false else w.hasClass el "collapsed")) ∧
      (∀ el, (applyInstantSidebarState
          ((Main.clickOnToggle inSidebar w).resizeTo other)).hasClass el "sidebar-collapsed" =
            (if el = .navbar ∨ el = .mainContent then false
              else w.hasClass el "sidebar-collapsed")) ∧
      ((applyInstantSidebarState
          ((Main.clickOnToggle inSidebar w).resizeTo other)).hasClass .sidebar "collapsed" =
        (applyInstantSidebarState (w.resizeTo other)).hasClass .sidebar "collapsed" ↔
          w.localStorage.getItem STORAGE_KEY ≠ some "desktop_collapsed")) ∧
    (1024 < w.innerWidth → other ≤ 1024 →
      (applyInstantSidebarState
          ((Main.clickOnToggle inSidebar w).resizeTo other)).hasClass .sidebar "active" = false ∧
      ((applyInstantSidebarState
          ((Main.clickOnToggle inSidebar w).resizeTo other)).hasClass .sidebar "active" =
        (applyInstantSidebarState (w.resizeTo other)).hasClass .sidebar "active" ↔
          w.localStorage.getItem STORAGE_KEY ≠ some "mobile_open")) := by
  have hpresent : w.sidebar.isSome = true := by
    simp only [Main.listenersInstalled, Bool.and_eq_true] at hl
    exact hl.1
  rw [clickOnToggle_eq inSidebar w hl]
  obtain ⟨hiw, hsp, hsome, hnsome, hmsome⟩ := toggleClick_frame w
  have hp' : ((Main.sidebarToggleClick w).resizeTo other).sidebar.isSome = true := by
    simpa [World.resizeTo, hsome] using hpresent
  have hp0 : (w.resizeTo other).sidebar.isSome = true := by
    simpa [World.resizeTo] using hpresent
  refine ⟨?_, ?_⟩
  · intro hm hd
    obtain ⟨hsb, hnb, hmc, hst, hso, hls, -, -⟩ := toggleClick_mobile w hm
    have hdesk : isMobile ((Main.sidebarToggleClick w).resizeTo other) = false := by
      simp [isMobile, World.resizeTo, hd]
    have hdesk0 : isMobile (w.resizeTo other) = false := by
      simp [isMobile, World.resizeTo, hd]
    have hne : getSidebarState ((Main.sidebarToggleClick w).resizeTo other)
        ≠ "desktop_collapsed" := by
      apply getSidebarState_ne_of_getItem _ _ _ hls _ (by decide)
      split_ifs <;> decide
    have hcol : (applyInstantSidebarState
        ((Main.sidebarToggleClick w).resizeTo other)).hasClass .sidebar "collapsed" = false := by
      rw [hasClass_apply_desktop _ hp' hdesk _ _ (by decide)]
      simp [hne]
    have hv : ∀ el c, ((Main.sidebarToggleClick w).resizeTo other).hasClass el c =
        (Main.sidebarToggleClick w).hasClass el c := fun _ _ => rfl
    refine ⟨?_, ?_, ?_⟩
    · intro el
      rw [hasClass_apply_desktop _ hp' hdesk _ _ (by decide), hv,
        toggleClick_mobile_hasClass w hm _ _ (by decide)]
      cases el <;> simp [hne]
    · intro el
      rw [hasClass_apply_desktop _ hp' hdesk _ _ (by decide), hv,
        toggleClick_mobile_hasClass w hm _ _ (by decide)]
      cases el <;> simp [hne]
    · rw [hcol, hasClass_apply_desktop _ hp0 hdesk0 _ _ (by decide)]
      have hget := getSidebarState_eq_iff w "desktop_collapsed" (by decide)
      have : getSidebarState (w.resizeTo other) = getSidebarState w := rfl
      rw [this]
      simp [World.getElementById, World.resizeTo, hpresent, hget]
  · intro hd hm
    obtain ⟨hsb, hnb, hmc, hls⟩ := toggleClick_desktop w hd
    have hmob : isMobile ((Main.sidebarToggleClick w).resizeTo other) = true := by
      simp [isMobile, World.resizeTo, hm]
    have hmob0 : isMobile (w.resizeTo other) = true := by
      simp [isMobile, World.resizeTo, hm]
    have hne : getSidebarState ((Main.sidebarToggleClick w).resizeTo other)
        ≠ "mobile_open" := by
      by_cases hc : (Main.sidebarToggleClick w).hasClass .sidebar "collapsed" = true
      · rw [if_pos hc] at hls
        exact getSidebarState_ne_of_getItem _ _ _ hls (by decide) (by decide)
      · rw [if_neg hc] at hls
        have : getSidebarState ((Main.sidebarToggleClick w).resizeTo other) = "" :=
          getSidebarState_of_getItem_none _ hls
        rw [this]
        decide
    have hact : (applyInstantSidebarState
        ((Main.sidebarToggleClick w).resizeTo other)).hasClass .sidebar "active" = false := by
      rw [hasClass_apply_mobile _ hp' hmob _ _ (by decide)]
      simp [hne]
    refine ⟨hact, ?_⟩
    rw [hact, hasClass_apply_mobile _ hp0 hmob0 _ _ (by decide)]
    have hget := getSidebarState_eq_iff w "mobile_open" (by decide)
    have : getSidebarState (w.resizeTo other) = getSidebarState w := rfl
    rw [this]
    simp [hget]

/-- Witness of C11, amended: the page of the counterexample. -/
theorem toggle_overwrites_other_mode_witness :
    Main.listenersInstalled Fixture.mobileWithDesktopPref = true ∧
    Fixture.mobileWithDesktopPref.innerWidth ≤ 1024 ∧ 1024 < 1280 ∧
    ((applyInstantSidebarState
        ((Main.clickOnToggle false Fixture.mobileWithDesktopPref).resizeTo 1280)).hasClass
          .sidebar "collapsed" =
      (applyInstantSidebarState
        (Fixture.mobileWithDesktopPref.resizeTo 1280)).hasClass .sidebar "collapsed" ↔
        Fixture.mobileWithDesktopPref.localStorage.getItem STORAGE_KEY ≠
          some "desktop_collapsed") :=
  ⟨rfl, by decide, by decide,
    ((toggle_overwrites_other_mode Fixture.mobileWithDesktopPref false 1280 rfl).1
      (by decide) (by decide)).2.2⟩

end TEOmanager

namespace TEOmanager
open SidebarPersistence

/-! ## Closing the sidebar: overlay click and outside click -/

theorem closeSidebar_result (w : World) (hs : w.sidebar.isSome = true) :
    (Main.setSidebarState "mobile_closed"
      ((w.classListRemove .sidebar "active").setDisplay .sidebarOverlay "none")).hasClass
        .sidebar "active" = false ∧
    (Main.setSidebarState "mobile_closed"
      ((w.classListRemove .sidebar "active").setDisplay .sidebarOverlay "none")).sidebarOverlay =
        w.sidebarOverlay.map (fun o => { o with display := "none" }) ∧
    (Main.setSidebarState "mobile_closed"
      ((w.classListRemove .sidebar "active").setDisplay
        .sidebarOverlay "none")).localStorage.getItem STORAGE_KEY = some "mobile_closed" ∧
    (Main.setSidebarState "mobile_closed"
      ((w.classListRemove .sidebar "active").setDisplay .sidebarOverlay "none")).innerWidth =
        w.innerWidth := by
  rw [main_setSidebarState_frame]
  simp only [main_setSidebarState_getItem]
  obtain ⟨iw, now, ls, sb, nb, mc, so, st, sp, tm, nt, tr, co⟩ := w
  cases sb <;> cases so <;>
    simp [World.classListRemove, World.setDisplay, World.updateElement, World.record,
      World.hasClass, World.getElementById, tokenContains, mem_tokenRemove] at hs ⊢

theorem documentClick_inactive (e : Main.ClickTarget) (w : World)
    (h : w.hasClass .sidebar "active" = false) : Main.documentClick e w = w := by
  simp [Main.documentClick, h]

theorem overlay_or_outside_click_closes (w : World) (e : Main.ClickTarget)
    (hl : Main.listenersInstalled w = true) :
    (w.sidebarOverlay.isSome = true →
      (Main.clickOnOverlay e w).hasClass .sidebar "active" = false ∧
      (∃ o, (Main.clickOnOverlay e w).sidebarOverlay = some o ∧ overlayHidden o = true) ∧
      (Main.clickOnOverlay e w).localStorage.getItem STORAGE_KEY = some "mobile_closed") ∧
    (w.innerWidth ≤ 1024 → w.hasClass .sidebar "active" = true →
      (Main.clickOutside false w).hasClass .sidebar "active" = false ∧
      (Main.clickOutside false w).sidebarOverlay.isSome = w.sidebarOverlay.isSome ∧
      (∀ o, (Main.clickOutside false w).sidebarOverlay = some o → overlayHidden o = true) ∧
      (Main.clickOutside false w).localStorage.getItem STORAGE_KEY = some "mobile_closed") := by
  have hpresent : w.sidebar.isSome = true := by
    simp only [Main.listenersInstalled, Bool.and_eq_true] at hl
    exact hl.1
  obtain ⟨hact, hov, hst, -⟩ := closeSidebar_result w hpresent
  refine ⟨?_, ?_⟩
  · intro ho
    have hstep : Main.clickOnOverlay e w = Main.overlayClick w := by
      simp only [Main.clickOnOverlay, hl, ho, Bool.and_self, if_true]
      exact documentClick_inactive e _ hact
    rw [hstep]
    refine ⟨hact, ?_, hst⟩
    obtain ⟨o, hso⟩ := Option.isSome_iff_exists.mp ho
    refine ⟨{ o with display := "none" }, ?_, rfl⟩
    show (Main.setSidebarState "mobile_closed"
      ((w.classListRemove .sidebar "active").setDisplay .sidebarOverlay "none")).sidebarOverlay
        = _
    rw [hov, hso]
    rfl
  · intro hm hactive
    have hmob : Main.isMobile w = true := by simp [Main.isMobile, hm]
    have hstep : Main.clickOutside false w =
        Main.setSidebarState "mobile_closed"
          (if (w.classListRemove .sidebar "active").sidebarOverlay.isSome then
            (w.classListRemove .sidebar "active").setDisplay .sidebarOverlay "none"
           else w.classListRemove .sidebar "active") := by
      simp [Main.clickOutside, hl, Main.documentClick, hmob, hactive]
    cases hso : w.sidebarOverlay with
    | some o =>
      have hsome : (w.classListRemove .sidebar "active").sidebarOverlay.isSome = true := by
        obtain ⟨iw, now, ls, sb, nb, mc, so, st, sp, tm, nt, tr, co⟩ := w
        simp only at hso
        subst hso
        rfl
      rw [hstep, if_pos hsome]
      refine ⟨hact, ?_, ?_, hst⟩
      · rw [hov, hso]
        rfl
      · intro o' ho'
        rw [hov, hso] at ho'
        cases ho'
        rfl
    | none =>
      have hnone : (w.classListRemove .sidebar "active").sidebarOverlay.isSome = false := by
        obtain ⟨iw, now, ls, sb, nb, mc, so, st, sp, tm, nt, tr, co⟩ := w
        simp only at hso
        subst hso
        rfl
      rw [hstep, hnone]
      simp only [Bool.false_eq_true, if_false]
      rw [main_setSidebarState_frame]
      simp only [main_setSidebarState_getItem]
      obtain ⟨iw, now, ls, sb, nb, mc, so, st, sp, tm, nt, tr, co⟩ := w
      simp only at hso
      subst hso
      cases sb <;>
        simp [World.classListRemove, World.updateElement, World.record,
          World.hasClass, World.getElementById, tokenContains, mem_tokenRemove]

end TEOmanager

namespace TEOmanager
open SidebarPersistence

theorem overlay_click_closes_example :
    Main.listenersInstalled Fixture.mobileOpen = true ∧
    Fixture.mobileOpen.sidebarOverlay.isSome = true ∧
    (Main.clickOnOverlay { inSidebar := false, inToggle := false }
      Fixture.mobileOpen).hasClass .sidebar "active" = false ∧
    (∃ o, (Main.clickOnOverlay { inSidebar := false, inToggle := false }
      Fixture.mobileOpen).sidebarOverlay = some o ∧ overlayHidden o = true) ∧
    (Main.clickOnOverlay { inSidebar := false, inToggle := false }
      Fixture.mobileOpen).localStorage.getItem STORAGE_KEY = some "mobile_closed" :=
  ⟨rfl, rfl,
    (overlay_or_outside_click_closes Fixture.mobileOpen
      { inSidebar := false, inToggle := false } rfl).1 rfl⟩

/-- Claim C12, at the input where the code departs from it. On an 800 px wide
window with the sidebar open, a click on a target inside
`.cart-preview-dropdown`, which lies outside the sidebar and outside the toggle
control, changes nothing: the listener of cart-functions.js stops the
propagation, the document listener of main.js never runs, the sidebar keeps
`active`, the overlay stays shown and `mobile_open` stays stored. The same
click on a target outside the cart preview closes the sidebar. -/
theorem outside_click_in_cart_preview_ignored :
    Main.listenersInstalled Fixture.mobileOpen = true ∧
    Fixture.mobileOpen.innerWidth ≤ 1024 ∧
    Fixture.mobileOpen.hasClass .sidebar "active" = true ∧
    Main.clickOutside true Fixture.mobileOpen = Fixture.mobileOpen ∧
    (Main.clickOutside true Fixture.mobileOpen).hasClass .sidebar "active" = true ∧
    (Main.clickOutside true Fixture.mobileOpen).sidebarOverlay.map overlayVisible =
      some true ∧
    (Main.clickOutside true Fixture.mobileOpen).localStorage.getItem STORAGE_KEY =
      some "mobile_open" ∧
    (Main.clickOutside false Fixture.mobileOpen).hasClass .sidebar "active" = false ∧
    (Main.clickOutside false Fixture.mobileOpen).localStorage.getItem STORAGE_KEY =
      some "mobile_closed" := by
  refine ⟨rfl, by decide, rfl, rfl, rfl, rfl, ?_, ?_, ?_⟩ <;> decide

/-! ## The resize listener of main.js -/

theorem resizeListener_mobile (w : World) (hm : w.innerWidth ≤ 1024) :
    (Main.resizeListener w).sidebar = w.sidebar.map (fun s => { s with classList := (
      if getSidebarState w = "mobile_open" then
        tokenAdd (tokenRemove s.classList "collapsed") "active"
      else tokenRemove (tokenRemove s.classList "collapsed") "active") }) ∧
    (Main.resizeListener w).sidebarOverlay = w.sidebarOverlay.map (fun o =>
      { o with display := (if getSidebarState w = "mobile_open" then "block" else "none") }) ∧
    (Main.resizeListener w).innerWidth = w.innerWidth ∧
    (Main.resizeListener w).localStorage = w.localStorage := by
  have hmob : Main.isMobile w = true := by simp [Main.isMobile, hm]
  unfold Main.resizeListener
  simp only [hmob, Bool.not_true, Bool.false_eq_true, if_false, main_getSidebarState_eq]
  obtain ⟨iw, now, ls, sb, nb, mc, so, st, sp, tm, nt, tr, co⟩ := w
  cases sb <;> cases nb <;> cases mc <;> cases so <;>
    simp [World.classListAdd, World.classListRemove, World.setDisplay, World.updateElement,
      World.record, getSidebarState] <;>
    split_ifs <;> simp

/-- Claim C13. With `desktop_collapsed` stored and the listeners installed, once
a resize to a Mobile width (at most 1024, for instance 800) has been handled by
the resize listener of main.js and then by the debounced `apply()` of
sidebar-persistence.js, the sidebar carries neither `collapsed` nor `active`
and the overlay, when present, is hidden, whatever the classes were before. -/
theorem resize_to_mobile_clears_collapsed (w : World) (width : Nat)
    (hl : Main.listenersInstalled w = true)
    (hstored : w.localStorage.getItem STORAGE_KEY = some "desktop_collapsed")
    (hm : width ≤ 1024) :
    (runTimerAction (Main.resizeListener (w.resizeTo width)) .handleResize).hasClass
      .sidebar "collapsed" = false ∧
    (runTimerAction (Main.resizeListener (w.resizeTo width)) .handleResize).hasClass
      .sidebar "active" = false ∧
    (runTimerAction (Main.resizeListener (w.resizeTo width)) .handleResize).sidebarOverlay.isSome
      = w.sidebarOverlay.isSome ∧
    (∀ o, (runTimerAction (Main.resizeListener (w.resizeTo width))
      .handleResize).sidebarOverlay = some o → overlayHidden o = true) := by
  have hpresent : w.sidebar.isSome = true := by
    simp only [Main.listenersInstalled, Bool.and_eq_true] at hl
    exact hl.1
  obtain ⟨s, hs⟩ := Option.isSome_iff_exists.mp hpresent
  have hmw : (w.resizeTo width).innerWidth ≤ 1024 := hm
  obtain ⟨hsb, hso, hiw, hls⟩ := resizeListener_mobile (w.resizeTo width) hmw
  have hsaved : getSidebarState (w.resizeTo width) ≠ "mobile_open" :=
    getSidebarState_ne_of_getItem _ _ _ hstored (by decide) (by decide)
  have hsaved' : getSidebarState (Main.resizeListener (w.resizeTo width)) ≠ "mobile_open" := by
    apply getSidebarState_ne_of_getItem _ _ _ _ (by decide : "desktop_collapsed" ≠ _) (by decide)
    rw [hls]
    exact hstored
  have hp1 : (Main.resizeListener (w.resizeTo width)).sidebar.isSome = true := by
    rw [hsb]
    simpa [World.resizeTo] using hpresent
  have hmob1 : isMobile (Main.resizeListener (w.resizeTo width)) = true := by
    have : (Main.resizeListener (w.resizeTo width)).innerWidth ≤ 1024 := hiw ▸ hmw
    simp [isMobile, this]
  have hov : (applyInstantSidebarState (Main.resizeListener (w.resizeTo width))).sidebarOverlay
      = w.sidebarOverlay.map (fun o => { o with display := "none" }) := by
    rw [(apply_frame _).2.2.2.1, hso]
    simp only [if_neg hsaved]
    rfl
  simp only [runTimerAction]
  refine ⟨?_, ?_, ?_, ?_⟩
  · rw [hasClass_apply_mobile _ hp1 hmob1 _ _ (by decide)]
    simp only [World.hasClass, World.getElementById, hsb, if_neg hsaved]
    simp [World.resizeTo, hs, tokenContains, mem_tokenRemove]
  · rw [hasClass_apply_mobile _ hp1 hmob1 _ _ (by decide)]
    simp [hsaved']
  · rw [hov]
    cases w.sidebarOverlay <;> rfl
  · intro o ho
    rw [hov] at ho
    cases hw : w.sidebarOverlay with
    | none => simp [hw] at ho
    | some o0 =>
      rw [hw, Option.map_some', Option.some.injEq] at ho
      subst ho
      rfl

/-- Witness of C13: a collapsed 1280 px wide window resized to 800 px. -/
theorem resize_to_mobile_clears_collapsed_witness :
    Main.listenersInstalled Fixture.desktopCollapsed = true ∧
    Fixture.desktopCollapsed.localStorage.getItem STORAGE_KEY = some "desktop_collapsed" ∧
    800 ≤ 1024 ∧
    (runTimerAction (Main.resizeListener (Fixture.desktopCollapsed.resizeTo 800))
      .handleResize).hasClass .sidebar "collapsed" = false ∧
    (runTimerAction (Main.resizeListener (Fixture.desktopCollapsed.resizeTo 800))
      .handleResize).hasClass .sidebar "active" = false :=
  ⟨rfl, by decide, by decide,
    (resize_to_mobile_clears_collapsed Fixture.desktopCollapsed 800 rfl (by decide)
      (by decide)).1,
    (resize_to_mobile_clears_collapsed Fixture.desktopCollapsed 800 rfl (by decide)
      (by decide)).2.1⟩

end TEOmanager

namespace TEOmanager
open SidebarPersistence

/-! ## The three copies of `isMobile` -/

/-- Claim C18. For every viewport width, each copy of `isMobile` (the one of
sidebar-persistence.js and the two of main.js) answers true exactly when the
width is at most 1024: 1024 is Mobile, 1025 is Desktop, and the three copies
agree on every width. -/
theorem isMobile_breakpoint (w : World) (width : Nat) :
    (isMobile (w.resizeTo width) = true ↔ width ≤ 1024) ∧
    isMobile (w.resizeTo 1024) = true ∧
    isMobile (w.resizeTo 1025) = false ∧
    MainInline.isMobile (w.resizeTo width) = isMobile (w.resizeTo width) ∧
    Main.isMobile (w.resizeTo width) = isMobile (w.resizeTo width) := by
  refine ⟨?_, ?_, ?_, rfl, rfl⟩ <;> simp [isMobile, World.resizeTo]

/-! ## The inline copy of `applyInstantSidebarState` in main.js -/

theorem inline_absent (w : World) (hs : w.sidebar = none) :
    MainInline.applyInstantSidebarState w = w := by
  simp [MainInline.applyInstantSidebarState, hs]

theorem inline_targets (w : World) (hs : w.sidebar.isSome = true) :
    (MainInline.applyInstantSidebarState w).sidebar = w.sidebar.map (fun s =>
      { s with
        transition := "none"
        classList := (
          if isMobile w then
            if getSidebarState w = "mobile_open" then tokenAdd s.classList "active"
            else tokenRemove s.classList "active"
          else
            if getSidebarState w = "desktop_collapsed" then tokenAdd s.classList "collapsed"
            else tokenRemove s.classList "collapsed") }) ∧
    (MainInline.applyInstantSidebarState w).navbar = w.navbar.map (fun n =>
      { n with
        transition := "none"
        classList := (
          if isMobile w then n.classList
          else
            if getSidebarState w = "desktop_collapsed" then
              tokenAdd n.classList "sidebar-collapsed"
            else tokenRemove n.classList "sidebar-collapsed") }) ∧
    (MainInline.applyInstantSidebarState w).mainContent = w.mainContent.map (fun n =>
      { n with
        transition := "none"
        classList := (
          if isMobile w then n.classList
          else
            if getSidebarState w = "desktop_collapsed" then
              tokenAdd n.classList "sidebar-collapsed"
            else tokenRemove n.classList "sidebar-collapsed") }) ∧
    (MainInline.applyInstantSidebarState w).sidebarOverlay = w.sidebarOverlay ∧
    (MainInline.applyInstantSidebarState w).sidebarToggle = w.sidebarToggle := by
  have hget : MainInline.getSidebarState w = getSidebarState w := rfl
  unfold MainInline.applyInstantSidebarState
  rw [hget]
  obtain ⟨iw, now, ls, sb, nb, mc, so, st, sp, tm, nt, tr, co⟩ := w
  cases sb with
  | none => simp at hs
  | some s =>
    cases nb <;> cases mc <;>
      simp [MainInline.isMobile, isMobile, World.setTransition,
        World.classListAdd, World.classListRemove, World.updateElement, World.record,
        World.setTimeout] <;>
      split_ifs <;> simp

theorem hasClass_inline (w : World) (el : ElemId) (c : String) (hc : c ≠ "no-transition") :
    (MainInline.applyInstantSidebarState w).hasClass el c =
      (applyInstantSidebarState w).hasClass el c := by
  cases hsb : w.sidebar with
  | none => rw [inline_absent w hsb, apply_absent w hsb]
  | some s =>
    have hs : w.sidebar.isSome = true := by simp [hsb]
    obtain ⟨h1, h2, h3, h4, h5⟩ := inline_targets w hs
    cases hm : isMobile w
    · rw [hasClass_apply_desktop w hs hm el c hc]
      cases el <;>
        simp only [World.hasClass, World.getElementById, h1, h2, h3, h4, h5, hm, hsb]
      · by_cases hg : getSidebarState w = "desktop_collapsed" <;>
          by_cases ha : c = "collapsed" <;>
          simp [hg, ha, tokenContains, mem_tokenAdd, mem_tokenRemove]
      · cases w.navbar <;>
          by_cases hg : getSidebarState w = "desktop_collapsed" <;>
          by_cases ha : c = "sidebar-collapsed" <;>
          simp [hg, ha, tokenContains, mem_tokenAdd, mem_tokenRemove]
      · cases w.mainContent <;>
          by_cases hg : getSidebarState w = "desktop_collapsed" <;>
          by_cases ha : c = "sidebar-collapsed" <;>
          simp [hg, ha, tokenContains, mem_tokenAdd, mem_tokenRemove]
      · simp
      · simp
    · rw [hasClass_apply_mobile w hs hm el c hc]
      cases el <;>
        simp only [World.hasClass, World.getElementById, h1, h2, h3, h4, h5, hm, hsb]
      · by_cases hg : getSidebarState w = "mobile_open" <;>
          by_cases ha : c = "active" <;>
          simp [hg, ha, tokenContains, mem_tokenAdd, mem_tokenRemove]
      · cases w.navbar <;> simp
      · cases w.mainContent <;> simp
      · simp
      · simp

end TEOmanager

namespace TEOmanager
open SidebarPersistence

/-- Claim C19. For every page, the inline `applyInstantSidebarState` of main.js
and `apply()` of sidebar-persistence.js leave the same memberships of `active`,
`collapsed` and `sidebar-collapsed` on every element. They differ in how they
suspend transitions: the inline copy writes the inline style `transition:
none` on the present targets and leaves `no-transition` alone; `apply()` adds
the class `no-transition` to them and leaves the inline style alone. -/
theorem inline_apply_same_classes (w : World) (el : ElemId) :
    (MainInline.applyInstantSidebarState w).hasClass el "active" =
      (applyInstantSidebarState w).hasClass el "active" ∧
    (MainInline.applyInstantSidebarState w).hasClass el "collapsed" =
      (applyInstantSidebarState w).hasClass el "collapsed" ∧
    (MainInline.applyInstantSidebarState w).hasClass el "sidebar-collapsed" =
      (applyInstantSidebarState w).hasClass el "sidebar-collapsed" ∧
    (MainInline.applyInstantSidebarState w).hasClass el "no-transition" =
      w.hasClass el "no-transition" ∧
    ((applyInstantSidebarState w).getElementById el).map Element.transition =
      (w.getElementById el).map Element.transition ∧
    (w.sidebar.isSome = true → (el = .sidebar ∨ el = .navbar ∨ el = .mainContent) →
      (w.getElementById el).isSome = true →
        ((MainInline.applyInstantSidebarState w).getElementById el).map Element.transition =
          some "none" ∧
        (applyInstantSidebarState w).hasClass el "no-transition" = true) := by
  refine ⟨hasClass_inline w el _ (by decide), hasClass_inline w el _ (by decide),
    hasClass_inline w el _ (by decide), ?_, ?_, ?_⟩
  · cases hsb : w.sidebar with
    | none => rw [inline_absent w hsb]
    | some s =>
      have hs : w.sidebar.isSome = true := by simp [hsb]
      obtain ⟨h1, h2, h3, h4, h5⟩ := inline_targets w hs
      cases el <;> simp only [World.hasClass, World.getElementById, h1, h2, h3, h4, h5, hsb]
      · simp only [Option.map_some', tokenContains]
        split_ifs <;> simp [mem_tokenAdd, mem_tokenRemove]
      · cases w.navbar with
        | none => rfl
        | some n =>
          simp only [Option.map_some', tokenContains]
          split_ifs <;> simp [mem_tokenAdd, mem_tokenRemove]
      · cases w.mainContent with
        | none => rfl
        | some n =>
          simp only [Option.map_some', tokenContains]
          split_ifs <;> simp [mem_tokenAdd, mem_tokenRemove]
  · cases hsb : w.sidebar with
    | none => rw [apply_absent w hsb]
    | some s =>
      have hs : w.sidebar.isSome = true := by simp [hsb]
      cases el <;>
        simp only [World.getElementById, apply_sidebar w s hsb, apply_navbar w hs,
          apply_mainContent w hs, (apply_frame w).2.2.2.1, (apply_frame w).2.2.2.2.1, hsb]
      · rfl
      · cases w.navbar <;> rfl
      · cases w.mainContent <;> rfl
  · intro hs htarget hpresent
    obtain ⟨h1, h2, h3, -, -⟩ := inline_targets w hs
    refine ⟨?_, apply_marker w hs el ((mem_elementsToDisable w el).mpr ⟨htarget, hpresent⟩)⟩
    obtain ⟨e, he⟩ := Option.isSome_iff_exists.mp hpresent
    rcases htarget with h | h | h <;> subst h <;>
      simp only [World.getElementById] at he ⊢
    · rw [h1, he]
      rfl
    · rw [h2, he]
      rfl
    · rw [h3, he]
      rfl

/-- Witness of C19: the sidebar of a collapsed desktop page. -/
theorem inline_apply_same_classes_witness :
    Fixture.desktopCollapsed.sidebar.isSome = true ∧
    (Fixture.desktopCollapsed.getElementById .sidebar).isSome = true ∧
    ((MainInline.applyInstantSidebarState Fixture.desktopCollapsed).getElementById
      .sidebar).map Element.transition = some "none" ∧
    (applyInstantSidebarState Fixture.desktopCollapsed).hasClass .sidebar "no-transition"
      = true :=
  ⟨rfl, rfl,
    (inline_apply_same_classes Fixture.desktopCollapsed .sidebar).2.2.2.2.2 rfl
      (Or.inl rfl) rfl⟩

/-! ## The stored value reproduces the toggled layout -/

theorem toggleClick_desktop_hasClass (w : World) (hd : 1024 < w.innerWidth) (el : ElemId)
    (c : String) :
    (Main.sidebarToggleClick w).hasClass el c =
      if (el = .sidebar ∧ c = "collapsed") ∨
          ((el = .navbar ∨ el = .mainContent) ∧ c = "sidebar-collapsed") then
        (!w.hasClass el c && (w.getElementById el).isSome)
      else w.hasClass el c := by
  have hmob : Main.isMobile w = false := by simp [Main.isMobile, hd]
  unfold Main.sidebarToggleClick
  simp only [hmob, Bool.false_eq_true, if_false]
  rw [main_setSidebarState_frame]
  obtain ⟨iw, now, ls, sb, nb, mc, so, st, sp, tm, nt, tr, co⟩ := w
  cases el <;> cases sb <;> cases nb <;> cases mc <;>
    simp [World.classListToggle, World.updateElement, World.record,
      World.hasClass, World.getElementById] <;>
    first
    | done
    | (by_cases hc : c = "collapsed" <;>
        simp [hc, tokenContains_toggle_self, tokenContains_toggle_of_ne])
    | (by_cases hc : c = "sidebar-collapsed" <;>
        simp [hc, tokenContains_toggle_self, tokenContains_toggle_of_ne])

end TEOmanager

namespace TEOmanager
open SidebarPersistence

theorem getSidebarState_toggleClick_mobile (w : World) (hm : w.innerWidth ≤ 1024) :
    decide (getSidebarState (Main.sidebarToggleClick w) = "mobile_open") =
      (Main.sidebarToggleClick w).hasClass .sidebar "active" := by
  obtain ⟨-, -, -, -, -, hls, -, -⟩ := toggleClick_mobile w hm
  have hget := getSidebarState_eq_iff (Main.sidebarToggleClick w) "mobile_open" (by decide)
  cases hc : (Main.sidebarToggleClick w).hasClass .sidebar "active"
  · rw [hc] at hls
    simp only [Bool.false_eq_true, if_false] at hls
    simp [hget, hls]
  · rw [hc] at hls
    simp only [if_true] at hls
    simp [hget, hls]

theorem getSidebarState_toggleClick_desktop (w : World) (hd : 1024 < w.innerWidth) :
    decide (getSidebarState (Main.sidebarToggleClick w) = "desktop_collapsed") =
      (Main.sidebarToggleClick w).hasClass .sidebar "collapsed" := by
  obtain ⟨-, -, -, hls⟩ := toggleClick_desktop w hd
  have hget := getSidebarState_eq_iff (Main.sidebarToggleClick w) "desktop_collapsed"
    (by decide)
  cases hc : (Main.sidebarToggleClick w).hasClass .sidebar "collapsed"
  · rw [hc] at hls
    simp only [Bool.false_eq_true, if_false] at hls
    simp [hget, hls]
  · rw [hc] at hls
    simp only [if_true] at hls
    simp [hget, hls]

/-- Claim C20. Take a page, in either viewport mode, on which the navbar and the
main content (each when present) carry `sidebar-collapsed` exactly when the
sidebar carries `collapsed`. After a click on the toggle control, an `apply()`
in the same viewport mode changes the membership of none of `active`,
`collapsed`, `sidebar-collapsed` on any element: the stored value reproduces
the toggled layout. -/
theorem toggle_then_apply_stable (w : World) (inSidebar : Bool) (el : ElemId)
    (hl : Main.listenersInstalled w = true)
    (hnav : w.navbar.isSome = true →
      w.hasClass .navbar "sidebar-collapsed" = w.hasClass .sidebar "collapsed")
    (hmain : w.mainContent.isSome = true →
      w.hasClass .mainContent "sidebar-collapsed" = w.hasClass .sidebar "collapsed") :
    (applyInstantSidebarState (Main.clickOnToggle inSidebar w)).hasClass el "active" =
      (Main.clickOnToggle inSidebar w).hasClass el "active" ∧
    (applyInstantSidebarState (Main.clickOnToggle inSidebar w)).hasClass el "collapsed" =
      (Main.clickOnToggle inSidebar w).hasClass el "collapsed" ∧
    (applyInstantSidebarState (Main.clickOnToggle inSidebar w)).hasClass el
        "sidebar-collapsed" =
      (Main.clickOnToggle inSidebar w).hasClass el "sidebar-collapsed" := by
  have hpresent : w.sidebar.isSome = true := by
    simp only [Main.listenersInstalled, Bool.and_eq_true] at hl
    exact hl.1
  rw [clickOnToggle_eq inSidebar w hl]
  obtain ⟨hiw, -, hsome, hnsome, hmsome⟩ := toggleClick_frame w
  have hp' : (Main.sidebarToggleClick w).sidebar.isSome = true := hsome.trans hpresent
  by_cases hm : w.innerWidth ≤ 1024
  · have hmob : isMobile (Main.sidebarToggleClick w) = true := by
      simp [isMobile, hiw, hm]
    have hsaved := getSidebarState_toggleClick_mobile w hm
    refine ⟨?_, ?_, ?_⟩ <;> rw [hasClass_apply_mobile _ hp' hmob _ _ (by decide)]
    · by_cases he : el = .sidebar
      · subst he
        simp [hsaved]
      · simp [he]
    · simp
    · simp
  · have hd : 1024 < w.innerWidth := Nat.lt_of_not_le hm
    have hdesk : isMobile (Main.sidebarToggleClick w) = false := by
      simp [isMobile, hiw, hd]
    have hsaved := getSidebarState_toggleClick_desktop w hd
    have hside := toggleClick_desktop_hasClass w hd .sidebar "collapsed"
    simp only [true_and, true_or, if_true, World.getElementById, hpresent,
      Bool.and_true] at hside
    refine ⟨?_, ?_, ?_⟩ <;> rw [hasClass_apply_desktop _ hp' hdesk _ _ (by decide)]
    · simp
    · by_cases he : el = .sidebar
      · subst he
        simp [hsaved, World.getElementById, hp']
      · simp [he]
    · rw [hsaved, hside]
      cases el
      · simp
      · have h := toggleClick_desktop_hasClass w hd .navbar "sidebar-collapsed"
        simp only [World.getElementById] at h ⊢
        rw [h, hnsome]
        cases hn : w.navbar.isSome
        · simp
        · simp [hnav hn]
      · have h := toggleClick_desktop_hasClass w hd .mainContent "sidebar-collapsed"
        simp only [World.getElementById] at h ⊢
        rw [h, hmsome]
        cases hn : w.mainContent.isSome
        · simp
        · simp [hmain hn]
      · simp
      · simp

/-- Witness of C20: the collapsed desktop page, clicked back to expanded. -/
theorem toggle_then_apply_stable_witness :
    Main.listenersInstalled Fixture.desktopCollapsed = true ∧
    (Fixture.desktopCollapsed.navbar.isSome = true →
      Fixture.desktopCollapsed.hasClass .navbar "sidebar-collapsed" =
        Fixture.desktopCollapsed.hasClass .sidebar "collapsed") ∧
    (Fixture.desktopCollapsed.mainContent.isSome = true →
      Fixture.desktopCollapsed.hasClass .mainContent "sidebar-collapsed" =
        Fixture.desktopCollapsed.hasClass .sidebar "collapsed") ∧
    (applyInstantSidebarState (Main.clickOnToggle false Fixture.desktopCollapsed)).hasClass
        .navbar "sidebar-collapsed" =
      (Main.clickOnToggle false Fixture.desktopCollapsed).hasClass
        .navbar "sidebar-collapsed" :=
  ⟨rfl, fun _ => by decide, fun _ => by decide,
    (toggle_then_apply_stable Fixture.desktopCollapsed false .navbar rfl
      (fun _ => by decide) (fun _ => by decide)).2.2⟩

end TEOmanager

namespace TEOmanager
open SidebarPersistence

/-! ## Storage that throws -/

/-- Counterexample to C15: with the quota exceeded, `set('mobile_open')` ends
with a `QuotaExceededError` reaching its caller. -/
theorem set_throws_counterexample :
    (setSidebarStateE Fixture.quotaFull "mobile_open"
      Fixture.freshDesktop).thrown = some JsError.quotaExceededError ∧
    (Main.setSidebarStateE Fixture.quotaFull "mobile_open"
      Fixture.freshDesktop).thrown = some JsError.quotaExceededError := by
  decide

/-- Claim C15, amended. `set(state)` has no `try`: when the storage write or
removal throws (storage disabled, or quota exceeded on a write), the exception
reaches the caller of `set`, and the page, storage content included, is left
as it was. When nothing throws, `set` ends normally with the result of
`setSidebarState`. The copy in main.js behaves the same. -/
theorem set_propagates_storage_error (f : StorageFaults) (state : String) (w : World) :
    ((f.disabled = true ∨ (f.quotaExceeded = true ∧ state ≠ "")) →
      (setSidebarStateE f state w).thrown ≠ none ∧
      (setSidebarStateE f state w).world = w ∧
      (Main.setSidebarStateE f state w).thrown ≠ none ∧
      (Main.setSidebarStateE f state w).world = w) ∧
    (¬ (f.disabled = true ∨ (f.quotaExceeded = true ∧ state ≠ "")) →
      setSidebarStateE f state w = { world := setSidebarState state w, thrown := none } ∧
      Main.setSidebarStateE f state w =
        { world := Main.setSidebarState state w, thrown := none }) := by
  obtain ⟨d, q⟩ := f
  cases d <;> cases q <;> by_cases hs : state = "" <;> cases hp : w.sidebarPersistence <;>
    simp [setSidebarStateE, Main.setSidebarStateE, Storage.setItemE, Storage.removeItemE,
      setSidebarState, Main.setSidebarState, hs, hp, STORAGE_KEY]

/-- Witness of C15, amended: a write with the quota exceeded. -/
theorem set_propagates_storage_error_witness :
    (Fixture.quotaFull.quotaExceeded = true ∧ "mobile_open" ≠ "") ∧
    (setSidebarStateE Fixture.quotaFull "mobile_open"
      Fixture.mobileClosed).thrown ≠ none ∧
    (setSidebarStateE Fixture.quotaFull "mobile_open"
      Fixture.mobileClosed).world = Fixture.mobileClosed :=
  ⟨⟨rfl, by decide⟩,
    ((set_propagates_storage_error Fixture.quotaFull
      "mobile_open" Fixture.mobileClosed).1 (Or.inr ⟨rfl, by decide⟩)).1,
    ((set_propagates_storage_error Fixture.quotaFull
      "mobile_open" Fixture.mobileClosed).1 (Or.inr ⟨rfl, by decide⟩)).2.1⟩

/-- Counterexample to C16: with storage disabled, `get()` ends with a
`SecurityError`, and `apply()` on a collapsed desktop page ends with the same
error and leaves the sidebar collapsed, not in the default layout. -/
theorem get_throws_counterexample :
    getSidebarStateE Fixture.storageDisabled Fixture.desktopCollapsed =
      .error JsError.securityError ∧
    (applyInstantSidebarStateE Fixture.storageDisabled
      Fixture.desktopCollapsed).thrown = some JsError.securityError ∧
    (applyInstantSidebarStateE Fixture.storageDisabled
      Fixture.desktopCollapsed).world.hasClass .sidebar "collapsed" = true := by
  refine ⟨rfl, ?_, ?_⟩ <;> decide

/-- Claim C16, amended. `get()` has no `try`: when reading the storage throws,
the exception reaches the caller of `get()`. `apply()` then ends at its
storage read with that exception, before any write: it leaves every class,
timer and stored value as they were, so it produces no layout of its own. When
reading does not throw, `get()` returns the value of `getSidebarState` and
`apply()` completes. -/
theorem get_propagates_storage_error (f : StorageFaults) (w : World) :
    (f.disabled = true →
      getSidebarStateE f w = .error JsError.securityError ∧
      applyInstantSidebarStateE f w = { world := w, thrown := some JsError.securityError }) ∧
    (f.disabled = false →
      getSidebarStateE f w = .ok (getSidebarState w) ∧
      applyInstantSidebarStateE f w =
        { world := applyInstantSidebarState w, thrown := none }) := by
  obtain ⟨d, q⟩ := f
  cases d <;>
    simp [getSidebarStateE, applyInstantSidebarStateE, Storage.getItemE, getSidebarState]

/-- Witness of C16, amended: storage disabled on a collapsed desktop page. -/
theorem get_propagates_storage_error_witness :
    Fixture.storageDisabled.disabled = true ∧
    getSidebarStateE Fixture.storageDisabled Fixture.desktopCollapsed =
      .error JsError.securityError ∧
    applyInstantSidebarStateE Fixture.storageDisabled
      Fixture.desktopCollapsed =
        { world := Fixture.desktopCollapsed, thrown := some JsError.securityError } :=
  ⟨rfl,
    (get_propagates_storage_error Fixture.storageDisabled
      Fixture.desktopCollapsed).1 rfl⟩

/-- Counterexample to C17: on a page without the sidebar element, with storage
disabled, `apply()` ends with a `SecurityError`. -/
theorem apply_without_sidebar_counterexample :
    Fixture.noSidebar.sidebar = none ∧
    (applyInstantSidebarStateE Fixture.storageDisabled Fixture.noSidebar).thrown =
      some JsError.securityError := by
  refine ⟨rfl, ?_⟩
  decide

/-- Claim C17, amended. When the sidebar element is absent, `apply()` changes
nothing, for every width and stored value and whether or not the navbar and
the main content exist: the page after the call is the page before it (same
classes, same timers, same storage). It raises no error when the storage can
be read. With storage disabled it raises the `SecurityError` of its storage
read, which comes before the test for the sidebar, and still changes
nothing. -/
theorem apply_without_sidebar (w : World) (f : StorageFaults) (hs : w.sidebar = none) :
    applyInstantSidebarState w = w ∧
    (f.disabled = false →
      applyInstantSidebarStateE f w = { world := w, thrown := none }) ∧
    (f.disabled = true →
      applyInstantSidebarStateE f w =
        { world := w, thrown := some JsError.securityError }) := by
  have h := apply_absent w hs
  obtain ⟨d, q⟩ := f
  refine ⟨h, ?_, ?_⟩
  · intro hread
    simp only at hread
    subst hread
    simp [applyInstantSidebarStateE, getSidebarStateE, Storage.getItemE, h]
  · intro hread
    simp only at hread
    subst hread
    simp [applyInstantSidebarStateE, getSidebarStateE, Storage.getItemE]

/-- Witness of C17, amended: a desktop page without the sidebar element, with
a storage that works and with a disabled one. -/
theorem apply_without_sidebar_witness :
    Fixture.noSidebar.sidebar = none ∧
    Fixture.storageFine.disabled = false ∧
    Fixture.storageDisabled.disabled = true ∧
    applyInstantSidebarState Fixture.noSidebar = Fixture.noSidebar ∧
    applyInstantSidebarStateE Fixture.storageFine Fixture.noSidebar =
      { world := Fixture.noSidebar, thrown := none } ∧
    applyInstantSidebarStateE Fixture.storageDisabled Fixture.noSidebar =
      { world := Fixture.noSidebar, thrown := some JsError.securityError } :=
  ⟨rfl, rfl, rfl,
    (apply_without_sidebar Fixture.noSidebar Fixture.storageFine rfl).1,
    (apply_without_sidebar Fixture.noSidebar Fixture.storageFine rfl).2.1 rfl,
    (apply_without_sidebar Fixture.noSidebar Fixture.storageDisabled rfl).2.2 rfl⟩

end TEOmanager

namespace TEOmanager
open SidebarPersistence

/-! ## Debounce of the resize listener -/

theorem filter_swap {α : Type} (l : List α) (p q : α → Bool) :
    (l.filter p).filter q = (l.filter q).filter p := by
  simp only [List.filter_filter]
  congr 1
  funext a
  exact Bool.and_comm _ _

theorem classListRemove_frame (w : World) (el : ElemId) (c : String) :
    (w.classListRemove el c).timers = w.timers ∧
    (w.classListRemove el c).now = w.now ∧
    (w.classListRemove el c).innerWidth = w.innerWidth := by
  cases el <;> exact ⟨rfl, rfl, rfl⟩

theorem foldl_classListRemove_frame (els : List ElemId) (c : String) (w : World) :
    (els.foldl (fun acc el => acc.classListRemove el c) w).timers = w.timers ∧
    (els.foldl (fun acc el => acc.classListRemove el c) w).now = w.now ∧
    (els.foldl (fun acc el => acc.classListRemove el c) w).innerWidth = w.innerWidth := by
  induction els generalizing w with
  | nil => exact ⟨rfl, rfl, rfl⟩
  | cons e rest ih =>
    obtain ⟨h1, h2, h3⟩ := ih (w.classListRemove e c)
    obtain ⟨g1, g2, g3⟩ := classListRemove_frame w e c
    exact ⟨h1.trans g1, h2.trans g2, h3.trans g3⟩

theorem runTimerAction_frame (w : World) (a : TimerAction) :
    (runTimerAction w a).now = w.now ∧
    (runTimerAction w a).innerWidth = w.innerWidth ∧
    resizePending (runTimerAction w a) = resizePending w := by
  cases a with
  | reenableTransitions els =>
    obtain ⟨h1, h2, h3⟩ := foldl_classListRemove_frame els "no-transition" w
    exact ⟨h2, h3, by simp only [resizePending, runTimerAction, h1]⟩
  | restoreInlineTransitions =>
    obtain ⟨iw, now, ls, sb, nb, mc, so, st, sp, tm, nt, tr, co⟩ := w
    cases nb <;> cases mc <;>
      simp [runTimerAction, resizePending, World.setTransition, World.updateElement,
        World.record]
  | handleResize =>
    refine ⟨(apply_frame w).2.1, (apply_frame w).1, ?_⟩
    cases hsb : w.sidebar with
    | none => simp only [runTimerAction, apply_absent w hsb]
    | some s =>
      have hs : w.sidebar.isSome = true := by simp [hsb]
      simp [runTimerAction, resizePending, apply_timers w hs, List.filter_append]

theorem runTimer_frame (s : Session) (t : Timer) :
    (s.runTimer t).world.now = s.world.now ∧
    (s.runTimer t).world.innerWidth = s.world.innerWidth ∧
    (s.runTimer t).resizeTimeout = s.resizeTimeout := by
  unfold Session.runTimer
  split_ifs
  · exact ⟨(runTimerAction_frame _ _).1, (runTimerAction_frame _ _).2.1, rfl⟩
  · exact ⟨rfl, rfl, rfl⟩

theorem runTimer_other (s : Session) (t : Timer) (h : t.action ≠ .handleResize) :
    resizePending (s.runTimer t).world = resizePending s.world ∧
    resizeRuns (s.runTimer t) = resizeRuns s := by
  unfold Session.runTimer
  split_ifs with hmem
  · refine ⟨?_, ?_⟩
    · simp only [(runTimerAction_frame _ _).2.2]
      simp only [resizePending]
      rw [filter_swap]
      apply List.filter_eq_self.mpr
      intro u hu
      have hact : u.action = .handleResize := by simpa using (List.mem_filter.mp hu).2
      have : u ≠ t := fun hut => h (hut ▸ hact)
      simpa using this
    · simp [resizeRuns, List.filter_append, h]
  · exact ⟨rfl, rfl⟩

theorem runTimer_resize (s : Session) (t : Timer) (h : t.action = .handleResize)
    (hp : resizePending s.world = [t]) :
    resizePending (s.runTimer t).world = [] ∧
    resizeRuns (s.runTimer t) =
      resizeRuns s ++ [{ time := s.world.now, action := .handleResize,
                         innerWidth := s.world.innerWidth }] := by
  have hmem : t ∈ s.world.timers := by
    have : t ∈ resizePending s.world := by simp [hp]
    exact (List.mem_filter.mp this).1
  unfold Session.runTimer
  rw [if_pos hmem]
  refine ⟨?_, ?_⟩
  · simp only [(runTimerAction_frame _ _).2.2]
    simp only [resizePending]
    rw [filter_swap]
    have hp' : List.filter (fun t => decide (t.action = TimerAction.handleResize))
        s.world.timers = [t] := hp
    rw [hp']
    simp
  · simp [resizeRuns, List.filter_append, h]

theorem foldl_runTimer_other (l : List Timer) (s : Session)
    (h : ∀ t ∈ l, t.action ≠ .handleResize) :
    (l.foldl Session.runTimer s).world.now = s.world.now ∧
    (l.foldl Session.runTimer s).world.innerWidth = s.world.innerWidth ∧
    (l.foldl Session.runTimer s).resizeTimeout = s.resizeTimeout ∧
    resizePending (l.foldl Session.runTimer s).world = resizePending s.world ∧
    resizeRuns (l.foldl Session.runTimer s) = resizeRuns s := by
  induction l generalizing s with
  | nil => exact ⟨rfl, rfl, rfl, rfl, rfl⟩
  | cons t rest ih =>
    obtain ⟨h1, h2, h3, h4, h5⟩ := ih (s.runTimer t) (fun u hu => h u (List.mem_cons_of_mem _ hu))
    obtain ⟨f1, f2, f3⟩ := runTimer_frame s t
    obtain ⟨g1, g2⟩ := runTimer_other s t (h t (List.mem_cons_self _ _))
    exact ⟨h1.trans f1, h2.trans f2, h3.trans f3, h4.trans g1, h5.trans g2⟩

theorem foldl_runTimer_one (l : List Timer) (s : Session) (t : Timer)
    (hl : l.filter (fun u => decide (u.action = .handleResize)) = [t])
    (hp : resizePending s.world = [t]) :
    (l.foldl Session.runTimer s).world.now = s.world.now ∧
    (l.foldl Session.runTimer s).world.innerWidth = s.world.innerWidth ∧
    (l.foldl Session.runTimer s).resizeTimeout = s.resizeTimeout ∧
    resizePending (l.foldl Session.runTimer s).world = [] ∧
    resizeRuns (l.foldl Session.runTimer s) =
      resizeRuns s ++ [{ time := s.world.now, action := .handleResize,
                         innerWidth := s.world.innerWidth }] := by
  induction l generalizing s with
  | nil => simp at hl
  | cons u rest ih =>
    obtain ⟨f1, f2, f3⟩ := runTimer_frame s u
    by_cases hu : u.action = .handleResize
    · rw [List.filter_cons_of_pos (by simpa using hu)] at hl
      have hut : u = t := by
        have := List.cons.inj hl
        exact this.1
      have hrest : ∀ v ∈ rest, v.action ≠ .handleResize := by
        intro v hv hact
        have hnil : rest.filter (fun u => decide (u.action = .handleResize)) = [] :=
          (List.cons.inj hl).2
        have : v ∈ rest.filter (fun u => decide (u.action = .handleResize)) :=
          List.mem_filter.mpr ⟨hv, by simpa using hact⟩
        rw [hnil] at this
        simp at this
      subst hut
      obtain ⟨g1, g2⟩ := runTimer_resize s u hu hp
      obtain ⟨h1, h2, h3, h4, h5⟩ := foldl_runTimer_other rest (s.runTimer u) hrest
      exact ⟨h1.trans f1, h2.trans f2, h3.trans f3, h4.trans g1, h5.trans g2⟩
    · rw [List.filter_cons_of_neg (by simpa using hu)] at hl
      obtain ⟨g1, g2⟩ := runTimer_other s u hu
      obtain ⟨h1, h2, h3, h4, h5⟩ := ih (s.runTimer u) hl (g1.trans hp)
      refine ⟨h1.trans f1, h2.trans f2, h3.trans f3, h4, ?_⟩
      rw [List.foldl_cons, h5, g2, f1, f2]

end TEOmanager

namespace TEOmanager
open SidebarPersistence

theorem tick_quiet (s : Session)
    (h : ∀ t ∈ resizePending s.world, s.world.now + 1 < t.due) :
    s.tick.world.now = s.world.now + 1 ∧
    s.tick.world.innerWidth = s.world.innerWidth ∧
    s.tick.resizeTimeout = s.resizeTimeout ∧
    resizePending s.tick.world = resizePending s.world ∧
    resizeRuns s.tick = resizeRuns s := by
  unfold Session.tick
  refine foldl_runTimer_other _ _ ?_
  intro t ht hact
  obtain ⟨hmem, hdue⟩ := List.mem_filter.mp ht
  have hp : t ∈ resizePending s.world := List.mem_filter.mpr ⟨hmem, by simpa using hact⟩
  have := h t hp
  simp only [decide_eq_true_eq] at hdue
  omega

theorem tick_fire (s : Session) (t : Timer) (hp : resizePending s.world = [t])
    (hd : t.due ≤ s.world.now + 1) :
    s.tick.world.now = s.world.now + 1 ∧
    s.tick.world.innerWidth = s.world.innerWidth ∧
    s.tick.resizeTimeout = s.resizeTimeout ∧
    resizePending s.tick.world = [] ∧
    resizeRuns s.tick =
      resizeRuns s ++ [{ time := s.world.now + 1, action := .handleResize,
                         innerWidth := s.world.innerWidth }] := by
  unfold Session.tick
  refine foldl_runTimer_one _ _ t ?_ hp
  rw [filter_swap]
  have hp' : List.filter (fun t => decide (t.action = TimerAction.handleResize))
      s.world.timers = [t] := hp
  simp only [hp']
  simp [hd]

theorem advance_quiet (k : Nat) (s : Session)
    (h : ∀ t ∈ resizePending s.world, s.world.now + k < t.due) :
    (s.advance k).world.now = s.world.now + k ∧
    (s.advance k).world.innerWidth = s.world.innerWidth ∧
    (s.advance k).resizeTimeout = s.resizeTimeout ∧
    resizePending (s.advance k).world = resizePending s.world ∧
    resizeRuns (s.advance k) = resizeRuns s := by
  induction k generalizing s with
  | zero => exact ⟨rfl, rfl, rfl, rfl, rfl⟩
  | succ n ih =>
    obtain ⟨t1, t2, t3, t4, t5⟩ := tick_quiet s (fun t ht => by have := h t ht; omega)
    obtain ⟨h1, h2, h3, h4, h5⟩ := ih s.tick (fun t ht => by
      rw [t4] at ht
      have := h t ht
      omega)
    refine ⟨?_, h2.trans t2, h3.trans t3, h4.trans t4, h5.trans t5⟩
    show (s.tick.advance n).world.now = _
    omega

theorem advance_add (a b : Nat) (s : Session) :
    s.advance (a + b) = (s.advance a).advance b := by
  induction a generalizing s with
  | zero => simp [Session.advance]
  | succ n ih =>
    have : n + 1 + b = (n + b) + 1 := by omega
    rw [this]
    exact ih s.tick

theorem main_resizeListener_frame (w : World) :
    (Main.resizeListener w).timers = w.timers ∧
    (Main.resizeListener w).now = w.now ∧
    (Main.resizeListener w).nextTimer = w.nextTimer ∧
    (Main.resizeListener w).innerWidth = w.innerWidth := by
  unfold Main.resizeListener
  obtain ⟨iw, now, ls, sb, nb, mc, so, st, sp, tm, nt, tr, co⟩ := w
  cases nb <;> cases mc <;> cases so <;>
    simp [World.classListAdd, World.classListRemove, World.setDisplay, World.updateElement,
      World.record] <;>
    split_ifs <;> simp

theorem resize_step (s : Session) (width : Nat)
    (h : ∀ t ∈ resizePending s.world, s.resizeTimeout = some t.id) :
    (s.resize width).world.now = s.world.now ∧
    (s.resize width).world.innerWidth = width ∧
    (s.resize width).resizeTimeout = some s.world.nextTimer ∧
    resizePending (s.resize width).world =
      [{ id := s.world.nextTimer, due := s.world.now + 100, action := .handleResize }] ∧
    resizeRuns (s.resize width) = resizeRuns s := by
  have hw : ∃ w1 : World, s.resize width = resizeListener { s with world := w1 } ∧
      w1.timers = s.world.timers ∧ w1.now = s.world.now ∧
      w1.nextTimer = s.world.nextTimer ∧ w1.innerWidth = width := by
    unfold Session.resize
    by_cases hi : Main.listenersInstalled (s.world.resizeTo width) = true
    · refine ⟨Main.resizeListener (s.world.resizeTo width), by simp [hi], ?_⟩
      obtain ⟨h1, h2, h3, h4⟩ := main_resizeListener_frame (s.world.resizeTo width)
      exact ⟨h1, h2, h3, h4⟩
    · exact ⟨s.world.resizeTo width, by simp [hi], rfl, rfl, rfl, rfl⟩
  obtain ⟨w1, hstep, ht, hn, hnt, hiw⟩ := hw
  rw [hstep]
  have hclear : resizePending (w1.clearTimeout s.resizeTimeout) = [] := by
    cases hrt : s.resizeTimeout with
    | none =>
      simp only [World.clearTimeout, resizePending, ht]
      apply List.filter_eq_nil_iff.mpr
      intro t htm hact
      have := h t (List.mem_filter.mpr ⟨htm, hact⟩)
      rw [hrt] at this
      cases this
    | some i =>
      simp only [World.clearTimeout, resizePending, ht]
      rw [filter_swap]
      apply List.filter_eq_nil_iff.mpr
      intro t htm
      have := h t htm
      rw [hrt] at this
      simp [Option.some.inj this]
  have hclear' : List.filter (fun t => decide (t.action = TimerAction.handleResize))
      (w1.clearTimeout s.resizeTimeout).timers = [] := hclear
  have hnt' : (w1.clearTimeout s.resizeTimeout).nextTimer = s.world.nextTimer := by
    cases s.resizeTimeout <;> exact hnt
  have hn' : (w1.clearTimeout s.resizeTimeout).now = s.world.now := by
    cases s.resizeTimeout <;> exact hn
  have hiw' : (w1.clearTimeout s.resizeTimeout).innerWidth = width := by
    cases s.resizeTimeout <;> exact hiw
  refine ⟨?_, ?_, ?_, ?_, rfl⟩
  · simpa [resizeListener, World.setTimeout] using hn'
  · simpa [resizeListener, World.setTimeout] using hiw'
  · simp [resizeListener, hnt']
  · simp [resizeListener, World.setTimeout, resizePending, List.filter_append, hclear', hnt',
      hn']

end TEOmanager

namespace TEOmanager
open SidebarPersistence

theorem burst_armed (more : List (Nat × Nat)) (s : Session) (gap width id : Nat)
    (hw : s.world.innerWidth = width)
    (hp : resizePending s.world = [{ id := id, due := s.world.now + 100, action := .handleResize }])
    (hrt : s.resizeTimeout = some id)
    (hruns : resizeRuns s = [])
    (hgaps : ∀ e ∈ more, e.1 < 100) :
    (Session.resizeBurst more s).world.innerWidth =
      (((gap, width) :: more).getLast (List.cons_ne_nil _ _)).2 ∧
    (∃ id', resizePending (Session.resizeBurst more s).world =
        [{ id := id', due := (Session.resizeBurst more s).world.now + 100,
           action := .handleResize }] ∧
      (Session.resizeBurst more s).resizeTimeout = some id') ∧
    resizeRuns (Session.resizeBurst more s) = [] := by
  induction more generalizing s gap width id with
  | nil => exact ⟨hw, ⟨id, hp, hrt⟩, hruns⟩
  | cons e rest ih =>
    obtain ⟨g, wd⟩ := e
    have hg : g < 100 := hgaps (g, wd) (List.mem_cons_self _ _)
    obtain ⟨a1, a2, a3, a4, a5⟩ := advance_quiet g s (by
      intro t ht
      rw [hp] at ht
      simp only [List.mem_singleton] at ht
      subst ht
      show s.world.now + g < s.world.now + 100
      omega)
    obtain ⟨r1, r2, r3, r4, r5⟩ := resize_step (s.advance g) wd (by
      intro t ht
      rw [a4, hp] at ht
      simp only [List.mem_singleton] at ht
      subst ht
      rw [a3, hrt])
    have step := ih ((s.advance g).resize wd) g wd (s.advance g).world.nextTimer r2
      (by rw [r4, r1]) r3 (by rw [r5, a5, hruns])
      (fun e he => hgaps e (List.mem_cons_of_mem _ he))
    rw [List.getLast_cons_cons]
    exact step

theorem burst_first (w : World) (gap width : Nat)
    (hfresh : ∀ t ∈ w.timers, t.action ≠ .handleResize) :
    (((Session.start w).advance gap).resize width).world.innerWidth = width ∧
    resizePending (((Session.start w).advance gap).resize width).world =
      [{ id := ((Session.start w).advance gap).world.nextTimer,
         due := (((Session.start w).advance gap).resize width).world.now + 100,
         action := .handleResize }] ∧
    (((Session.start w).advance gap).resize width).resizeTimeout =
      some ((Session.start w).advance gap).world.nextTimer ∧
    resizeRuns (((Session.start w).advance gap).resize width) = [] := by
  have hnone : resizePending (Session.start w).world = [] := by
    apply List.filter_eq_nil_iff.mpr
    intro t ht
    simpa using hfresh t ht
  obtain ⟨a1, a2, a3, a4, a5⟩ := advance_quiet gap (Session.start w) (by
    intro t ht
    rw [hnone] at ht
    simp at ht)
  obtain ⟨r1, r2, r3, r4, r5⟩ := resize_step ((Session.start w).advance gap) width (by
    intro t ht
    rw [a4, hnone] at ht
    simp at ht)
  refine ⟨r2, by rw [r4, r1], r3, ?_⟩
  rw [r5, a5]
  rfl

/-- Claim C14. Take a page view on which no resize timer is pending, and a
series of one or more resize events in which every event after the first comes
less than 100 ms after the one before it. During the series and for the 99 ms
after its last event `handleResize` (which is `apply()`) has not run and
exactly one resize timer is pending. At 100 ms after the last event it runs,
with the window width of the last event, and from then on it has run exactly
that once and no resize timer is pending. -/
theorem resize_debounce (w : World) (gap width : Nat) (more : List (Nat × Nat))
    (hfresh : ∀ t ∈ w.timers, t.action ≠ .handleResize)
    (hgaps : ∀ e ∈ more, e.1 < 100) :
    (∀ k, k < 100 →
      resizeRuns ((Session.resizeBurst ((gap, width) :: more) (Session.start w)).advance k)
        = [] ∧
      (resizePending ((Session.resizeBurst ((gap, width) :: more)
        (Session.start w)).advance k).world).length = 1) ∧
    (∀ k,
      resizeRuns ((Session.resizeBurst ((gap, width) :: more)
          (Session.start w)).advance (100 + k)) =
        [{ time := (Session.resizeBurst ((gap, width) :: more) (Session.start w)).world.now
                    + 100,
           action := .handleResize,
           innerWidth := (((gap, width) :: more).getLast (List.cons_ne_nil _ _)).2 }] ∧
      resizePending ((Session.resizeBurst ((gap, width) :: more)
        (Session.start w)).advance (100 + k)).world = []) ∧
    (∀ v, runTimerAction v .handleResize = applyInstantSidebarState v) := by
  obtain ⟨f1, f2, f3, f4⟩ := burst_first w gap width hfresh
  obtain ⟨b1, ⟨id, b2, b3⟩, b4⟩ := burst_armed more _ gap width _ f1 f2 f3 f4 hgaps
  have hs : Session.resizeBurst ((gap, width) :: more) (Session.start w) =
      Session.resizeBurst more (((Session.start w).advance gap).resize width) := rfl
  rw [hs]
  generalize Session.resizeBurst more (((Session.start w).advance gap).resize width) = s
    at b1 b2 b3 b4 ⊢
  have quiet : ∀ k, k < 100 →
      (s.advance k).world.now = s.world.now + k ∧
      (s.advance k).world.innerWidth = s.world.innerWidth ∧
      resizePending (s.advance k).world = resizePending s.world ∧
      resizeRuns (s.advance k) = resizeRuns s := by
    intro k hk
    obtain ⟨a1, a2, -, a4, a5⟩ := advance_quiet k s (by
      intro t ht
      rw [b2] at ht
      simp only [List.mem_singleton] at ht
      subst ht
      show s.world.now + k < s.world.now + 100
      omega)
    exact ⟨a1, a2, a4, a5⟩
  refine ⟨?_, ?_, fun _ => rfl⟩
  · intro k hk
    obtain ⟨-, -, q3, q4⟩ := quiet k hk
    rw [q4, q3, b2, b4]
    exact ⟨rfl, rfl⟩
  · intro k
    obtain ⟨q1, q2, q3, q4⟩ := quiet 99 (by omega)
    have hsplit : s.advance (100 + k) = ((s.advance 99).tick).advance k := by
      have h1 : 100 + k = 99 + (1 + k) := by omega
      rw [h1, advance_add, advance_add]
      rfl
    obtain ⟨t1, t2, -, t4, t5⟩ := tick_fire (s.advance 99) _ (q3.trans b2) (by
      show s.world.now + 100 ≤ (s.advance 99).world.now + 1
      omega)
    obtain ⟨-, -, -, c4, c5⟩ := advance_quiet k (s.advance 99).tick (by
      intro t ht
      rw [t4] at ht
      simp at ht)
    rw [hsplit, c5, c4, t5, t4, q4, b4, q1, q2, b1]
    refine ⟨?_, rfl⟩
    simp only [List.nil_append]

end TEOmanager

namespace TEOmanager
open SidebarPersistence

/-- Witness of C14: three resize events 30 ms and 99 ms apart on a fresh page,
ending at width 1300. -/
theorem resize_debounce_witness :
    (∀ t ∈ Fixture.freshDesktop.timers, t.action ≠ .handleResize) ∧
    (∀ e ∈ [(30, 800), (99, 1300)], e.1 < 100) ∧
    resizeRuns ((Session.resizeBurst ((5, 900) :: [(30, 800), (99, 1300)])
        (Session.start Fixture.freshDesktop)).advance (100 + 0)) =
      [{ time := (Session.resizeBurst ((5, 900) :: [(30, 800), (99, 1300)])
                    (Session.start Fixture.freshDesktop)).world.now + 100,
         action := .handleResize,
         innerWidth := (((5, 900) :: [(30, 800), (99, 1300)]).getLast
           (List.cons_ne_nil _ _)).2 }] :=
  ⟨by decide, by decide,
    ((resize_debounce Fixture.freshDesktop 5 900 [(30, 800), (99, 1300)]
      (by decide) (by decide)).2.1 0).1⟩

end TEOmanager

namespace TEOmanager
open Admin

/-! ## `getCookie` -/

theorem nameEq_length (name : String) : (name ++ "=").data.length = name.length + 1 := by
  cases name with
  | mk d =>
    show (d ++ ['=']).length = d.length + 1
    simp

theorem take_eq_iff_starts (name : String) (l : List Char) :
    l.take (name.length + 1) = (name ++ "=").data ↔
      ∃ text, l = (name ++ "=").data ++ text := by
  constructor
  · intro h
    refine ⟨l.drop (name.length + 1), ?_⟩
    rw [← h, List.take_append_drop]
  · rintro ⟨text, rfl⟩
    rw [← nameEq_length name, List.take_left]

theorem getCookieLoop_none (b : Builtins) (name : String) (entries : List (List Char))
    (h : ∀ e ∈ entries, ¬ ∃ text, trimChars e = (name ++ "=").data ++ text) :
    getCookieLoop b name entries = .ok none := by
  induction entries with
  | nil => rfl
  | cons e rest ih =>
    have he : ¬ (trimChars e).take (name.length + 1) = (name ++ "=").data := fun hc =>
      h e (List.mem_cons_self _ _) ((take_eq_iff_starts name _).mp hc)
    simp only [getCookieLoop, if_neg he]
    exact ih (fun x hx => h x (List.mem_cons_of_mem _ hx))

theorem getCookieLoop_first (b : Builtins) (name : String) (pre post : List (List Char))
    (e text : List Char)
    (hpre : ∀ x ∈ pre, ¬ ∃ t, trimChars x = (name ++ "=").data ++ t)
    (he : trimChars e = (name ++ "=").data ++ text) :
    getCookieLoop b name (pre ++ e :: post) =
      match b.decodeURIComponent (String.mk text) with
      | some v => .ok (some v)
      | none => .error .uriError := by
  induction pre with
  | nil =>
    have hm : (trimChars e).take (name.length + 1) = (name ++ "=").data :=
      (take_eq_iff_starts name _).mpr ⟨text, he⟩
    have hd : (trimChars e).drop (name.length + 1) = text := by
      rw [he, ← nameEq_length name, List.drop_left]
    rw [List.nil_append]
    unfold getCookieLoop
    simp only [if_pos hm, hd] <;>
      (cases b.decodeURIComponent (String.mk text) <;> rfl)
  | cons x rest ih =>
    have hx : ¬ (trimChars x).take (name.length + 1) = (name ++ "=").data := fun hc =>
      hpre x (List.mem_cons_self _ _) ((take_eq_iff_starts name _).mp hc)
    simp only [List.cons_append, getCookieLoop, if_neg hx]
    exact ih (fun y hy => hpre y (List.mem_cons_of_mem _ hy))

/-- Claim C24. For every cookie string and every name, `getCookie(name)` returns
`null` when no `;`-separated entry, once trimmed, starts with the name followed
by `=`. Otherwise it takes the first such entry and returns the text after
`name=`, URI-decoded (where `decodeURIComponent` throws, so does `getCookie`).
An empty cookie string gives `null`, and the entry `xcsrftoken=abc` is not
matched by the name `csrftoken`. -/
theorem getCookie_first_match (b : Builtins) (p : Page) (name : String) :
    (p.cookie = "" → getCookie b p name = .ok none) ∧
    ((∀ e ∈ splitChars ';' p.cookie.data,
        ¬ ∃ text, trimChars e = (name ++ "=").data ++ text) →
      getCookie b p name = .ok none) ∧
    (∀ pre e post text, splitChars ';' p.cookie.data = pre ++ e :: post →
      (∀ x ∈ pre, ¬ ∃ t, trimChars x = (name ++ "=").data ++ t) →
      trimChars e = (name ++ "=").data ++ text →
      (∀ v, b.decodeURIComponent (String.mk text) = some v →
        getCookie b p name = .ok (some v)) ∧
      (b.decodeURIComponent (String.mk text) = none →
        getCookie b p name = .error .uriError)) ∧
    getCookie b { p with cookie := "xcsrftoken=abc" } "csrftoken" = .ok none := by
  refine ⟨?_, ?_, ?_, ?_⟩
  · intro h
    simp [getCookie, h]
  · intro h
    unfold getCookie
    split_ifs
    · exact getCookieLoop_none b name _ h
    · rfl
  · intro pre e post text hsplit hpre he
    have hne : p.cookie ≠ "" := by
      intro hc
      rw [hc] at hsplit
      have hsingle : splitChars ';' "".data = [[]] := rfl
      rw [hsingle] at hsplit
      cases pre with
      | nil =>
        simp only [List.nil_append, List.cons.injEq] at hsplit
        rw [← hsplit.1] at he
        have hlen := congrArg List.length he
        rw [List.length_append, nameEq_length] at hlen
        simp [trimChars] at hlen
        omega
      | cons x rest =>
        simp only [List.cons_append, List.cons.injEq] at hsplit
        have := congrArg List.length hsplit.2
        simp at this
        omega
    have hloop := getCookieLoop_first b name pre post e text hpre he
    unfold getCookie
    rw [if_pos hne, hsplit, hloop]
    refine ⟨?_, ?_⟩
    · intro v hv
      rw [hv]
    · intro hv
      rw [hv]
  · rfl

/-- Witness of C24: the cookie string
`sessionid=s1; xcsrftoken=wrong; csrftoken=tok123` and the name `csrftoken`. -/
theorem getCookie_first_match_witness :
    splitChars ';' Fixture.adminPage.cookie.data =
      ["sessionid=s1".data, " xcsrftoken=wrong".data] ++
        " csrftoken=tok123".data :: [] ∧
    (∀ x ∈ ["sessionid=s1".data, " xcsrftoken=wrong".data],
      ¬ ∃ t, trimChars x = ("csrftoken" ++ "=").data ++ t) ∧
    trimChars " csrftoken=tok123".data = ("csrftoken" ++ "=").data ++ "tok123".data ∧
    Fixture.asciiBuiltins.decodeURIComponent (String.mk "tok123".data) = some "tok123" ∧
    getCookie Fixture.asciiBuiltins Fixture.adminPage "csrftoken" = .ok (some "tok123") :=
  have hpre : ∀ x ∈ ["sessionid=s1".data, " xcsrftoken=wrong".data],
      ¬ ∃ t, trimChars x = ("csrftoken" ++ "=").data ++ t := by
    intro x hx
    rw [← take_eq_iff_starts]
    simp only [List.mem_cons, List.mem_singleton, List.not_mem_nil, or_false] at hx
    rcases hx with rfl | rfl <;> decide
  ⟨rfl, hpre, rfl, rfl,
    ((getCookie_first_match Fixture.asciiBuiltins Fixture.adminPage "csrftoken").2.2.1
      _ _ _ _ rfl hpre rfl).1 "tok123" rfl⟩

end TEOmanager

namespace TEOmanager
open Admin

/-! ## `executeUserDeletion` -/

theorem closeDeleteModal_frame (p : Page) :
    (closeDeleteModal p).body = p.body ∧
    (closeDeleteModal p).submitted = p.submitted ∧
    (closeDeleteModal p).modal = p.modal.map (fun cls => tokenRemove cls "show") := by
  unfold closeDeleteModal
  cases hm : p.modal <;> cases hi : p.confirmInput <;> simp [hm, hi]

theorem showNotification_frame (message type : String) (p : Page) :
    (showNotification message type p).body = p.body ++ [.notification type message] ∧
    (showNotification message type p).submitted = p.submitted ∧
    (showNotification message type p).modal = p.modal :=
  ⟨rfl, rfl, rfl⟩

theorem executeUserDeletion_by_lookup (b : Builtins) (userId : String) (p : Page) :
    (∀ v, (p.queryCsrfField = some v ∨
        (p.queryCsrfField = none ∧ getCookie b p "csrftoken" = .ok (some v) ∧ v ≠ "")) →
      (executeUserDeletion b userId p).thrown = none ∧
      (executeUserDeletion b userId p).page.submitted = p.submitted ++
        [{ method := "POST", action := "/dashboard/users/" ++ userId ++ "/delete/",
           inputs := [{ type := "hidden", name := "csrfmiddlewaretoken", value := v }] }] ∧
      (executeUserDeletion b userId p).page.body = p.body ++
        [.form { method := "POST", action := "/dashboard/users/" ++ userId ++ "/delete/",
                 inputs := [{ type := "hidden", name := "csrfmiddlewaretoken",
                              value := v }] }] ∧
      (executeUserDeletion b userId p).page.modal =
        p.modal.map (fun cls => tokenRemove cls "show")) ∧
    ((p.queryCsrfField = none ∧
        (getCookie b p "csrftoken" = .ok none ∨ getCookie b p "csrftoken" = .ok (some ""))) →
      (executeUserDeletion b userId p).thrown = none ∧
      (executeUserDeletion b userId p).page.submitted = p.submitted ∧
      (executeUserDeletion b userId p).page.body = p.body ++
        [.notification "error"
          "Error: No se pudo obtener el token CSRF. Por favor, recarga la página."] ∧
      (executeUserDeletion b userId p).page.modal =
        p.modal.map (fun cls => tokenRemove cls "show")) := by
  obtain ⟨hb, hs, hm⟩ := closeDeleteModal_frame p
  refine ⟨?_, ?_⟩
  · intro v hv
    rcases hv with hq | ⟨hq, hc, hne⟩
    · simp [executeUserDeletion, hq, hb, hs, hm]
    · simp [executeUserDeletion, hq, hc, hne, hb, hs, hm]
  · rintro ⟨hq, hc | hc⟩
    · simp [executeUserDeletion, hq, hc, showNotification, hb, hs, hm]
    · simp [executeUserDeletion, hq, hc, showNotification, hb, hs, hm]

theorem firstCsrfInput_none (body : List Node)
    (h : ∀ g, Node.form g ∈ body → ∀ j ∈ g.inputs, j.name ≠ "csrfmiddlewaretoken") :
    firstCsrfInput body = none := by
  induction body with
  | nil => rfl
  | cons n rest ih =>
    have hrest := ih (fun g hg => h g (List.mem_cons_of_mem _ hg))
    cases n with
    | form f =>
      have hfind : f.inputs.find? (fun i => decide (i.name = "csrfmiddlewaretoken")) = none := by
        apply List.find?_eq_none.mpr
        intro j hj
        simpa using h f (List.mem_cons_self _ _) j hj
      simp only [firstCsrfInput, hfind, hrest]
    | notification ty msg => simp only [firstCsrfInput, hrest]

theorem find_first_csrf (a c : List FormInput) (i : FormInput)
    (ha : ∀ j ∈ a, j.name ≠ "csrfmiddlewaretoken") (hi : i.name = "csrfmiddlewaretoken") :
    (a ++ i :: c).find? (fun j => decide (j.name = "csrfmiddlewaretoken")) = some i := by
  induction a with
  | nil => simp [hi]
  | cons x rest ih =>
    have hx : x.name ≠ "csrfmiddlewaretoken" := ha x (List.mem_cons_self _ _)
    simp only [List.cons_append, List.find?_cons, hx, decide_False]
    exact ih (fun j hj => ha j (List.mem_cons_of_mem _ hj))

theorem firstCsrfInput_first (pre post : List Node) (f : Form) (a c : List FormInput)
    (i : FormInput)
    (hpre : ∀ g, Node.form g ∈ pre → ∀ j ∈ g.inputs, j.name ≠ "csrfmiddlewaretoken")
    (hf : f.inputs = a ++ i :: c)
    (ha : ∀ j ∈ a, j.name ≠ "csrfmiddlewaretoken") (hi : i.name = "csrfmiddlewaretoken") :
    firstCsrfInput (pre ++ Node.form f :: post) = some i.value := by
  induction pre with
  | nil =>
    have hfind := find_first_csrf a c i ha hi
    rw [← hf] at hfind
    simp only [List.nil_append, firstCsrfInput, hfind]
  | cons n rest ih =>
    have hrest := ih (fun g hg => hpre g (List.mem_cons_of_mem _ hg))
    cases n with
    | form g =>
      have hfind : g.inputs.find? (fun i => decide (i.name = "csrfmiddlewaretoken")) = none := by
        apply List.find?_eq_none.mpr
        intro j hj
        simpa using hpre g (List.mem_cons_self _ _) j hj
      rw [List.cons_append]
      simp only [firstCsrfInput, hfind]
      exact hrest
    | notification ty msg =>
      rw [List.cons_append]
      simp only [firstCsrfInput]
      exact hrest

theorem getCookie_no_match (b : Builtins) (p : Page) (name : String)
    (h : ∀ e ∈ splitChars ';' p.cookie.data,
      ¬ ∃ text, trimChars e = (name ++ "=").data ++ text) :
    getCookie b p name = .ok none := by
  unfold getCookie
  split_ifs
  · exact getCookieLoop_none b name _ h
  · rfl

theorem getCookie_at_first (b : Builtins) (p : Page) (name : String)
    (pre post : List (List Char)) (e text : List Char)
    (hsplit : splitChars ';' p.cookie.data = pre ++ e :: post)
    (hpre : ∀ x ∈ pre, ¬ ∃ t, trimChars x = (name ++ "=").data ++ t)
    (he : trimChars e = (name ++ "=").data ++ text) :
    getCookie b p name =
      match b.decodeURIComponent (String.mk text) with
      | some v => .ok (some v)
      | none => .error .uriError := by
  have hne : p.cookie ≠ "" := by
    intro hc
    rw [hc] at hsplit
    have hsingle : splitChars ';' "".data = [[]] := rfl
    rw [hsingle] at hsplit
    cases pre with
    | nil =>
      simp only [List.nil_append, List.cons.injEq] at hsplit
      rw [← hsplit.1] at he
      have hlen := congrArg List.length he
      rw [List.length_append, nameEq_length] at hlen
      simp [trimChars] at hlen
      omega
    | cons x rest =>
      simp only [List.cons_append, List.cons.injEq] at hsplit
      have := congrArg List.length hsplit.2
      simp at this
      omega
  unfold getCookie
  rw [if_pos hne, hsplit]
  exact getCookieLoop_first b name pre post e text hpre he

/-- Claim C22. For every `userId`, `executeUserDeletion(userId)` closes the
modal, then appends to the body and submits one POST form for
`/dashboard/users/<userId>/delete/` with a hidden `csrfmiddlewaretoken` field.
The field's value is that of the `csrfmiddlewaretoken` field of the page when
the page has one (the field rendered in it or, failing that, the first such
input of a form appended earlier); otherwise it is the decoded, non-empty value
of the first `csrftoken` entry of the cookie string. When the page has no such
field and the cookie has no `csrftoken` entry or an empty one, no form is
appended or submitted, the modal is closed and an error notification is
appended. When the page has no such field and `decodeURIComponent` throws on
the cookie value, the call throws and leaves the page as it was. -/
theorem executeUserDeletion_token (b : Builtins) (userId : String) (p : Page) :
    (∀ v,
      (p.csrfField = some v ∨
       (p.csrfField = none ∧ ∃ pre f post a i c,
          p.body = pre ++ Node.form f :: post ∧
          (∀ g, Node.form g ∈ pre → ∀ j ∈ g.inputs, j.name ≠ "csrfmiddlewaretoken") ∧
          f.inputs = a ++ i :: c ∧ (∀ j ∈ a, j.name ≠ "csrfmiddlewaretoken") ∧
          i.name = "csrfmiddlewaretoken" ∧ i.value = v) ∨
       (p.csrfField = none ∧
          (∀ g, Node.form g ∈ p.body → ∀ j ∈ g.inputs, j.name ≠ "csrfmiddlewaretoken") ∧
          v ≠ "" ∧ ∃ pre e post text,
            splitChars ';' p.cookie.data = pre ++ e :: post ∧
            (∀ x ∈ pre, ¬ ∃ t, trimChars x = ("csrftoken" ++ "=").data ++ t) ∧
            trimChars e = ("csrftoken" ++ "=").data ++ text ∧
            b.decodeURIComponent (String.mk text) = some v)) →
      (executeUserDeletion b userId p).thrown = none ∧
      (executeUserDeletion b userId p).page.submitted = p.submitted ++
        [{ method := "POST", action := "/dashboard/users/" ++ userId ++ "/delete/",
           inputs := [{ type := "hidden", name := "csrfmiddlewaretoken", value := v }] }] ∧
      (executeUserDeletion b userId p).page.body = p.body ++
        [.form { method := "POST", action := "/dashboard/users/" ++ userId ++ "/delete/",
                 inputs := [{ type := "hidden", name := "csrfmiddlewaretoken",
                              value := v }] }] ∧
      (executeUserDeletion b userId p).page.modal =
        p.modal.map (fun cls => tokenRemove cls "show")) ∧
    (p.csrfField = none →
      (∀ g, Node.form g ∈ p.body → ∀ j ∈ g.inputs, j.name ≠ "csrfmiddlewaretoken") →
      ((∀ e ∈ splitChars ';' p.cookie.data,
          ¬ ∃ t, trimChars e = ("csrftoken" ++ "=").data ++ t) ∨
        (∃ pre e post text,
          splitChars ';' p.cookie.data = pre ++ e :: post ∧
          (∀ x ∈ pre, ¬ ∃ t, trimChars x = ("csrftoken" ++ "=").data ++ t) ∧
          trimChars e = ("csrftoken" ++ "=").data ++ text ∧
          b.decodeURIComponent (String.mk text) = some "")) →
      (executeUserDeletion b userId p).thrown = none ∧
      (executeUserDeletion b userId p).page.submitted = p.submitted ∧
      (executeUserDeletion b userId p).page.body = p.body ++
        [.notification "error"
          "Error: No se pudo obtener el token CSRF. Por favor, recarga la página."] ∧
      (executeUserDeletion b userId p).page.modal =
        p.modal.map (fun cls => tokenRemove cls "show")) ∧
    (p.csrfField = none →
      (∀ g, Node.form g ∈ p.body → ∀ j ∈ g.inputs, j.name ≠ "csrfmiddlewaretoken") →
      (∃ pre e post text,
        splitChars ';' p.cookie.data = pre ++ e :: post ∧
        (∀ x ∈ pre, ¬ ∃ t, trimChars x = ("csrftoken" ++ "=").data ++ t) ∧
        trimChars e = ("csrftoken" ++ "=").data ++ text ∧
        b.decodeURIComponent (String.mk text) = none) →
      executeUserDeletion b userId p = { page := p, thrown := some Thrown.uriError }) := by
  obtain ⟨hsend, herr⟩ := executeUserDeletion_by_lookup b userId p
  refine ⟨?_, ?_, ?_⟩
  · intro v hv
    apply hsend v
    rcases hv with hfield | ⟨hnone, pre, f, post, a, i, c, hbody, hpre, hf, ha, hi, hval⟩ |
      ⟨hnone, hbody, hne, pre, e, post, text, hsplit, hpre, he, hdec⟩
    · left
      simp [Page.queryCsrfField, hfield]
    · left
      have := firstCsrfInput_first pre post f a c i hpre hf ha hi
      simp [Page.queryCsrfField, hnone, hbody, this, hval]
    · right
      have hq : p.queryCsrfField = none := by
        simp [Page.queryCsrfField, hnone, firstCsrfInput_none p.body hbody]
      have hc := getCookie_at_first b p "csrftoken" pre post e text hsplit hpre he
      rw [hdec] at hc
      exact ⟨hq, hc, hne⟩
  · intro hnone hbody hcookie
    have hq : p.queryCsrfField = none := by
      simp [Page.queryCsrfField, hnone, firstCsrfInput_none p.body hbody]
    apply herr
    refine ⟨hq, ?_⟩
    rcases hcookie with hno | ⟨pre, e, post, text, hsplit, hpre, he, hdec⟩
    · exact Or.inl (getCookie_no_match b p "csrftoken" hno)
    · have hc := getCookie_at_first b p "csrftoken" pre post e text hsplit hpre he
      rw [hdec] at hc
      exact Or.inr hc
  · rintro hnone hbody ⟨pre, e, post, text, hsplit, hpre, he, hdec⟩
    have hq : p.queryCsrfField = none := by
      simp [Page.queryCsrfField, hnone, firstCsrfInput_none p.body hbody]
    have hc := getCookie_at_first b p "csrftoken" pre post e text hsplit hpre he
    rw [hdec] at hc
    simp [executeUserDeletion, hq, hc]

/-- Witness of C22: a page with a CSRF field, a page without one whose cookie
holds `csrftoken=tok123`, and a page without one whose cookie value cannot be
decoded. -/
theorem executeUserDeletion_token_witness :
    Fixture.adminPageWithField.csrfField = some "fieldTok" ∧
    (executeUserDeletion Fixture.asciiBuiltins "7" Fixture.adminPageWithField).page.submitted =
      Fixture.adminPageWithField.submitted ++
        [{ method := "POST", action := "/dashboard/users/" ++ "7" ++ "/delete/",
           inputs := [{ type := "hidden", name := "csrfmiddlewaretoken",
                        value := "fieldTok" }] }] ∧
    Fixture.adminPage.csrfField = none ∧
    (executeUserDeletion Fixture.asciiBuiltins "7" Fixture.adminPage).page.submitted =
      Fixture.adminPage.submitted ++
        [{ method := "POST", action := "/dashboard/users/" ++ "7" ++ "/delete/",
           inputs := [{ type := "hidden", name := "csrfmiddlewaretoken",
                        value := "tok123" }] }] ∧
    Fixture.adminPageBadCookie.csrfField = none ∧
    executeUserDeletion Fixture.strictBuiltins "7" Fixture.adminPageBadCookie =
      { page := Fixture.adminPageBadCookie, thrown := some Thrown.uriError } :=
  have hpre : ∀ x ∈ ["sessionid=s1".data, " xcsrftoken=wrong".data],
      ¬ ∃ t, trimChars x = ("csrftoken" ++ "=").data ++ t := by
    intro x hx
    rw [← take_eq_iff_starts]
    simp only [List.mem_cons, List.mem_singleton, List.not_mem_nil, or_false] at hx
    rcases hx with rfl | rfl <;> decide
  ⟨rfl,
    ((executeUserDeletion_token Fixture.asciiBuiltins "7" Fixture.adminPageWithField).1
      "fieldTok" (Or.inl rfl)).2.1,
    rfl,
    ((executeUserDeletion_token Fixture.asciiBuiltins "7" Fixture.adminPage).1 "tok123"
      (Or.inr (Or.inr ⟨rfl, fun g hg => absurd hg (List.not_mem_nil _), by decide,
        ["sessionid=s1".data, " xcsrftoken=wrong".data], " csrftoken=tok123".data, [],
        "tok123".data, rfl, hpre, rfl, rfl⟩))).2.1,
    rfl,
    (executeUserDeletion_token Fixture.strictBuiltins "7" Fixture.adminPageBadCookie).2.2 rfl
      (fun g hg => absurd hg (List.not_mem_nil _))
      ⟨[], "csrftoken=%".data, [], "%".data, rfl,
        fun x hx => absurd hx (List.not_mem_nil _), rfl, rfl⟩⟩

/-! ## The confirm button and its click handler -/

theorem onclick_accepts_then_enabled (b : Builtins) (userId : String) (p : Page)
    (input : ConfirmInput) (btn : ConfirmButton)
    (hi : p.confirmInput = some input) (hb : p.confirmBtn = some btn)
    (h : b.toUpperCase input.value = "ELIMINAR") :
    confirmOnclick b userId p = executeUserDeletion b userId p ∧
    (validateDeleteInput b p).confirmBtn = some { btn with disabled := false } := by
  have htrim : trim "ELIMINAR" = "ELIMINAR" := by decide
  refine ⟨by simp [confirmOnclick, hi, h], ?_⟩
  have hne : ¬ ("ELIMINAR" = "") := by decide
  simp [validateDeleteInput, hi, hb, h, htrim, hne]

/-- Claim C21, at the input where the code departs from it. After
`deleteUser('7', 'ana')` the text `eliminar ` (with a blank at its end) makes
`validateDeleteInput` enable the confirm button, yet the click handler, which
does not trim, ignores the click: the page stays as it is and nothing is
submitted. -/
theorem confirm_enabled_but_click_ignored :
    (typeText Fixture.asciiBuiltins "eliminar "
      (deleteUser "7" "ana" Fixture.adminPage)).confirmBtn =
        some { disabled := false, onclick := some "7" } ∧
    clickConfirm Fixture.asciiBuiltins
      (typeText Fixture.asciiBuiltins "eliminar " (deleteUser "7" "ana" Fixture.adminPage)) =
        { page := typeText Fixture.asciiBuiltins "eliminar "
            (deleteUser "7" "ana" Fixture.adminPage),
          thrown := none } ∧
    (clickConfirm Fixture.asciiBuiltins
      (typeText Fixture.asciiBuiltins "eliminar "
        (deleteUser "7" "ana" Fixture.adminPage))).page.submitted = [] ∧
    (clickConfirm Fixture.asciiBuiltins
      (typeText Fixture.asciiBuiltins "eliminar"
        (deleteUser "7" "ana" Fixture.adminPage))).page.submitted ≠ [] := by
  refine ⟨rfl, rfl, rfl, ?_⟩
  decide

end TEOmanager

namespace TEOmanager
open Cart

/-! ## The in-progress flag of `addToCartAjax` -/

/-- Claim C23. While `cartUpdateInProgress` is true a call of `addToCartAjax`
returns at once: no request is sent and the page state is unchanged. A call
made while it is false sets it and sends the request. It stays true while the
call waits for the JSON of an OK response, and it is false again when the call
ends, whichever way: a success response, a failure reported by the server, a
status that is not OK, or an exception (a rejected `fetch` or a rejected
`response.json()`). -/
theorem cart_flag_guards_and_resets (productId csrfToken : String) (p : Page) :
    (p.cartUpdateInProgress = true →
      addToCartAjax productId csrfToken p = (p, none)) ∧
    (p.cartUpdateInProgress = false →
      (addToCartAjax productId csrfToken p).1.cartUpdateInProgress = true ∧
      (addToCartAjax productId csrfToken p).2 = some (.atFetch productId) ∧
      (addToCartAjax productId csrfToken p).1.requests = p.requests ++
        [{ url := "/cart/add/" ++ productId ++ "/", method := "POST",
           csrfToken := csrfToken }]) ∧
    (∀ status, p.cartUpdateInProgress = true →
      (resumeAfterFetch productId (.response true status) p).1.cartUpdateInProgress = true ∧
      (resumeAfterFetch productId (.response true status) p).2 = some (.atJson productId)) ∧
    (∀ status,
      (resumeAfterFetch productId (.response false status) p).1.cartUpdateInProgress = false ∧
      (resumeAfterFetch productId (.response false status) p).2 = none) ∧
    ((resumeAfterFetch productId .rejected p).1.cartUpdateInProgress = false ∧
      (resumeAfterFetch productId .rejected p).2 = none) ∧
    (∀ d, (resumeAfterJson productId (.data d) p).cartUpdateInProgress = false) ∧
    (resumeAfterJson productId .rejected p).cartUpdateInProgress = false := by
  refine ⟨?_, ?_, ?_, ?_, ?_, ?_, ?_⟩
  · intro h
    simp [addToCartAjax, h]
  · intro h
    simp [addToCartAjax, h]
  · intro status h
    simp [resumeAfterFetch, h]
  · intro status
    simp [resumeAfterFetch, catchThenFinally]
  · simp [resumeAfterFetch, catchThenFinally]
  · intro d
    simp [resumeAfterJson]
  · simp [resumeAfterJson, catchThenFinally]

/-- Witness of C23: a second call while the first is in progress. -/
theorem cart_flag_guards_and_resets_witness :
    Fixture.cartBusy.cartUpdateInProgress = true ∧
    addToCartAjax "9" "tok123" Fixture.cartBusy = (Fixture.cartBusy, none) ∧
    (∀ status,
      (resumeAfterFetch "9" (.response true status)
        Fixture.cartBusy).1.cartUpdateInProgress = true ∧
      (resumeAfterFetch "9" (.response true status) Fixture.cartBusy).2 =
        some (.atJson "9")) :=
  ⟨rfl, (cart_flag_guards_and_resets "9" "tok123" Fixture.cartBusy).1 rfl,
    fun status => (cart_flag_guards_and_resets "9" "tok123" Fixture.cartBusy).2.2.1 status rfl⟩

end TEOmanager
